import Mathlib

/-!
# SH-3/SH-4 cycle-timing model (`sh34_timings.h`)

A shallow embedding of the timing side-model of the SH-3/SH-4 CPU core:
the opcode classifier `sh_get_timing_type`, the instruction cost
`sh_get_instruction_cycles`, the address-region classifier
`sh_detect_memory_region` and the stateful memory latency evaluator
`sh_get_memory_cycles`.

Conventions of the embedding:
* `uint16_t` / `uint32_t` values are natural numbers; where the C code can
  wrap (`access_size - 1`, `last_address + size`) the operation is written
  with an explicit reduction modulo `2^32`;
* `int` cycle counts are integers;
* the file-level mutable `sh_mem_context` is passed in and returned
  explicitly;
* C arrays are lists, indexed by the numeric value of the enumerator.
-/

set_option linter.unusedVariables false
set_option maxRecDepth 100000

namespace SH34

/-! ## Timing categories and the per-variant cost tables -/

/-- Timing enumeration for indexing into the timing tables. -/
inductive sh_timing_type where
  | SH_TIMING_INT_ARITH -- Integer arithmetic instructions (ADD, SUB, etc.)
  | SH_TIMING_INT_LOGIC -- Integer logical instructions (AND, OR, XOR, etc.)
  | SH_TIMING_SHIFT -- Shift instructions (SHLD, SHAD, etc.)
  | SH_TIMING_BRANCH -- Branch instructions (BT, BF, JMP, etc.)
  | SH_TIMING_LOAD -- Load instructions (MOV.x @Rm, Rn)
  | SH_TIMING_STORE -- Store instructions (MOV.x Rm, @Rn)
  | SH_TIMING_LOAD_PC -- Load from PC-relative address (MOV.x @(disp,PC), Rn)
  | SH_TIMING_LOAD_IMM -- Load immediate value (MOV #imm, Rn)
  | SH_TIMING_SYS_REG -- System register transfer instructions (LDC, STC, etc.)
  | SH_TIMING_FCNV -- FPU conversion instructions (FTRC, FLOAT, etc.)
  | SH_TIMING_FMOVE -- FPU data move instructions (FMOV)
  | SH_TIMING_FARITH -- FPU arithmetic instructions (FADD, FSUB, FMUL, etc.)
  | SH_TIMING_FCOMP -- FPU comparison instructions (FCMP/EQ, FCMP/GT)
  | SH_TIMING_PREF -- Prefetch instruction (PREF)
  | SH_TIMING_MULTI_OP -- Multi-operation instructions (MAC.L, etc.)
  | SH_TIMING_EXEC_SLOT -- Delay slot execution penalty
  | SH_TIMING_TRAP -- Trap/exception handling (TRAPA)
  | SH_TIMING_RTE -- Return from exception (RTE)
  | SH_TIMING_CLRMAC -- Clear MAC register (CLRMAC)
  | SH_TIMING_NOP -- No operation (NOP)
  | SH_TIMING_MOVCA -- Atomic store (MOVCA.L)
  | SH_TIMING_TAS -- Test and set (TAS)
  | SH_TIMING_MAC -- Multiply and accumulate (MAC)
  | SH_TIMING_DMA -- DMA operations
  | SH_TIMING_DIV -- Division operations (DIV1)
  | SH_TIMING_FSQRT -- Square root operation (FSQRT)
  | SH_TIMING_FIPR -- Inner product (FIPR)
  | SH_TIMING_FTRV -- Matrix-vector multiplication (FTRV)
  | SH_TIMING_LDTLB -- Load TLB entry (LDTLB)
  | SH_TIMING_LAST -- Must be last entry
  deriving DecidableEq, Repr

open sh_timing_type

/-- Numeric value of an enumerator (its position in the C `enum`). -/
def sh_timing_type.toNat : sh_timing_type → Nat
  | .SH_TIMING_INT_ARITH => 0
  | .SH_TIMING_INT_LOGIC => 1
  | .SH_TIMING_SHIFT => 2
  | .SH_TIMING_BRANCH => 3
  | .SH_TIMING_LOAD => 4
  | .SH_TIMING_STORE => 5
  | .SH_TIMING_LOAD_PC => 6
  | .SH_TIMING_LOAD_IMM => 7
  | .SH_TIMING_SYS_REG => 8
  | .SH_TIMING_FCNV => 9
  | .SH_TIMING_FMOVE => 10
  | .SH_TIMING_FARITH => 11
  | .SH_TIMING_FCOMP => 12
  | .SH_TIMING_PREF => 13
  | .SH_TIMING_MULTI_OP => 14
  | .SH_TIMING_EXEC_SLOT => 15
  | .SH_TIMING_TRAP => 16
  | .SH_TIMING_RTE => 17
  | .SH_TIMING_CLRMAC => 18
  | .SH_TIMING_NOP => 19
  | .SH_TIMING_MOVCA => 20
  | .SH_TIMING_TAS => 21
  | .SH_TIMING_MAC => 22
  | .SH_TIMING_DMA => 23
  | .SH_TIMING_DIV => 24
  | .SH_TIMING_FSQRT => 25
  | .SH_TIMING_FIPR => 26
  | .SH_TIMING_FTRV => 27
  | .SH_TIMING_LDTLB => 28
  | .SH_TIMING_LAST => 29

/-- Instruction timings for SH-3 (cycles). -/
def sh3_insn_timings : List Int := [
  /- SH_TIMING_INT_ARITH -/ 1,
  /- SH_TIMING_INT_LOGIC -/ 1,
  /- SH_TIMING_SHIFT -/ 1,
  /- SH_TIMING_BRANCH -/ 2,
  /- SH_TIMING_LOAD -/ 1,
  /- SH_TIMING_STORE -/ 1,
  /- SH_TIMING_LOAD_PC -/ 2,
  /- SH_TIMING_LOAD_IMM -/ 1,
  /- SH_TIMING_SYS_REG -/ 4,
  /- SH_TIMING_FCNV -/ 5,
  /- SH_TIMING_FMOVE -/ 1,
  /- SH_TIMING_FARITH -/ 5,
  /- SH_TIMING_FCOMP -/ 3,
  /- SH_TIMING_PREF -/ 2,
  /- SH_TIMING_MULTI_OP -/ 3,
  /- SH_TIMING_EXEC_SLOT -/ 1,
  /- SH_TIMING_TRAP -/ 6,
  /- SH_TIMING_RTE -/ 5,
  /- SH_TIMING_CLRMAC -/ 2,
  /- SH_TIMING_NOP -/ 1,
  /- SH_TIMING_MOVCA -/ 4,
  /- SH_TIMING_TAS -/ 5,
  /- SH_TIMING_MAC -/ 3,
  /- SH_TIMING_DMA -/ 8,
  /- SH_TIMING_DIV -/ 6,
  /- SH_TIMING_FSQRT -/ 12,
  /- SH_TIMING_FIPR -/ 6,
  /- SH_TIMING_FTRV -/ 7,
  /- SH_TIMING_LDTLB -/ 7
]

/-- Instruction timings for SH-4 (cycles). -/
def sh4_insn_timings : List Int := [
  /- SH_TIMING_INT_ARITH -/ 1,
  /- SH_TIMING_INT_LOGIC -/ 1,
  /- SH_TIMING_SHIFT -/ 1,
  /- SH_TIMING_BRANCH -/ 2,
  /- SH_TIMING_LOAD -/ 1,
  /- SH_TIMING_STORE -/ 1,
  /- SH_TIMING_LOAD_PC -/ 1,
  /- SH_TIMING_LOAD_IMM -/ 1,
  /- SH_TIMING_SYS_REG -/ 3,
  /- SH_TIMING_FCNV -/ 3,
  /- SH_TIMING_FMOVE -/ 1,
  /- SH_TIMING_FARITH -/ 1,
  /- SH_TIMING_FCOMP -/ 1,
  /- SH_TIMING_PREF -/ 1,
  /- SH_TIMING_MULTI_OP -/ 2,
  /- SH_TIMING_EXEC_SLOT -/ 1,
  /- SH_TIMING_TRAP -/ 6,
  /- SH_TIMING_RTE -/ 4,
  /- SH_TIMING_CLRMAC -/ 1,
  /- SH_TIMING_NOP -/ 1,
  /- SH_TIMING_MOVCA -/ 1,
  /- SH_TIMING_TAS -/ 4,
  /- SH_TIMING_MAC -/ 2,
  /- SH_TIMING_DMA -/ 8,
  /- SH_TIMING_DIV -/ 2,
  /- SH_TIMING_FSQRT -/ 10,
  /- SH_TIMING_FIPR -/ 4,
  /- SH_TIMING_FTRV -/ 4,
  /- SH_TIMING_LDTLB -/ 6
]

/-- Pipeline stall cycles for SH-3. -/
def sh3_pipeline_stalls : List Int := [
  /- SH_TIMING_INT_ARITH -/ 0,
  /- SH_TIMING_INT_LOGIC -/ 0,
  /- SH_TIMING_SHIFT -/ 0,
  /- SH_TIMING_BRANCH -/ 1,
  /- SH_TIMING_LOAD -/ 0,
  /- SH_TIMING_STORE -/ 0,
  /- SH_TIMING_LOAD_PC -/ 1,
  /- SH_TIMING_LOAD_IMM -/ 0,
  /- SH_TIMING_SYS_REG -/ 1,
  /- SH_TIMING_FCNV -/ 1,
  /- SH_TIMING_FMOVE -/ 1,
  /- SH_TIMING_FARITH -/ 1,
  /- SH_TIMING_FCOMP -/ 1,
  /- SH_TIMING_PREF -/ 0,
  /- SH_TIMING_MULTI_OP -/ 1,
  /- SH_TIMING_EXEC_SLOT -/ 1,
  /- SH_TIMING_TRAP -/ 2,
  /- SH_TIMING_RTE -/ 2,
  /- SH_TIMING_CLRMAC -/ 1,
  /- SH_TIMING_NOP -/ 0,
  /- SH_TIMING_MOVCA -/ 2,
  /- SH_TIMING_TAS -/ 2,
  /- SH_TIMING_MAC -/ 2,
  /- SH_TIMING_DMA -/ 3,
  /- SH_TIMING_DIV -/ 1,
  /- SH_TIMING_FSQRT -/ 2,
  /- SH_TIMING_FIPR -/ 2,
  /- SH_TIMING_FTRV -/ 2,
  /- SH_TIMING_LDTLB -/ 3
]

/-- Pipeline stall cycles for SH-4. -/
def sh4_pipeline_stalls : List Int := [
  /- SH_TIMING_INT_ARITH -/ 0,
  /- SH_TIMING_INT_LOGIC -/ 0,
  /- SH_TIMING_SHIFT -/ 0,
  /- SH_TIMING_BRANCH -/ 1,
  /- SH_TIMING_LOAD -/ 1,
  /- SH_TIMING_STORE -/ 0,
  /- SH_TIMING_LOAD_PC -/ 1,
  /- SH_TIMING_LOAD_IMM -/ 0,
  /- SH_TIMING_SYS_REG -/ 1,
  /- SH_TIMING_FCNV -/ 1,
  /- SH_TIMING_FMOVE -/ 0,
  /- SH_TIMING_FARITH -/ 0,
  /- SH_TIMING_FCOMP -/ 0,
  /- SH_TIMING_PREF -/ 0,
  /- SH_TIMING_MULTI_OP -/ 1,
  /- SH_TIMING_EXEC_SLOT -/ 0,
  /- SH_TIMING_TRAP -/ 2,
  /- SH_TIMING_RTE -/ 2,
  /- SH_TIMING_CLRMAC -/ 0,
  /- SH_TIMING_NOP -/ 0,
  /- SH_TIMING_MOVCA -/ 0,
  /- SH_TIMING_TAS -/ 1,
  /- SH_TIMING_MAC -/ 0,
  /- SH_TIMING_DMA -/ 1,
  /- SH_TIMING_DIV -/ 1,
  /- SH_TIMING_FSQRT -/ 1,
  /- SH_TIMING_FIPR -/ 0,
  /- SH_TIMING_FTRV -/ 0,
  /- SH_TIMING_LDTLB -/ 1
]

/-- Array read `table[timing]`; an index outside the table reads as `0`
(the bounds theorem below shows this never happens). -/
def table_at (table : List Int) (timing : sh_timing_type) : Int :=
  table.getD timing.toNat 0

/-! ## Opcode classifier -/

/-- Opcode to timing type mapping table entry. -/
structure sh_opcode_timing_map where
  mask : Nat -- Bit mask to apply to opcode
  pattern : Nat -- Pattern to match after masking
  timing_type : sh_timing_type -- Timing type for this opcode
  deriving DecidableEq, Repr

/-- This table maps specific opcode patterns to their timing types. -/
def sh_timing_map : List sh_opcode_timing_map := [
  -- Integer arithmetic (ADD, SUB, etc.)
  sh_opcode_timing_map.mk 0xF000 0x3000 SH_TIMING_INT_ARITH, -- ADD
  sh_opcode_timing_map.mk 0xF000 0x7000 SH_TIMING_INT_ARITH, -- ADD #imm
  sh_opcode_timing_map.mk 0xF00F 0x300C SH_TIMING_INT_ARITH, -- ADD Rm, Rn
  sh_opcode_timing_map.mk 0xF00F 0x300A SH_TIMING_INT_ARITH, -- ADDC
  sh_opcode_timing_map.mk 0xF00F 0x300B SH_TIMING_INT_ARITH, -- ADDV
  sh_opcode_timing_map.mk 0xF00F 0x3008 SH_TIMING_INT_ARITH, -- SUB
  sh_opcode_timing_map.mk 0xF00F 0x300A SH_TIMING_INT_ARITH, -- SUBC
  sh_opcode_timing_map.mk 0xF00F 0x300B SH_TIMING_INT_ARITH, -- SUBV
  sh_opcode_timing_map.mk 0xF00F 0x0007 SH_TIMING_INT_ARITH, -- MUL.L
  sh_opcode_timing_map.mk 0xF00F 0x200F SH_TIMING_INT_ARITH, -- MULS.W
  sh_opcode_timing_map.mk 0xF00F 0x200E SH_TIMING_INT_ARITH, -- MULU.W
  sh_opcode_timing_map.mk 0xF00F 0x0000 SH_TIMING_INT_ARITH, -- CMP/EQ
  sh_opcode_timing_map.mk 0xF00F 0x3002 SH_TIMING_INT_ARITH, -- CMP/HS (CMP/GE unsigned)
  sh_opcode_timing_map.mk 0xF00F 0x3003 SH_TIMING_INT_ARITH, -- CMP/GE
  sh_opcode_timing_map.mk 0xF00F 0x3006 SH_TIMING_INT_ARITH, -- CMP/HI (CMP/GT unsigned)
  sh_opcode_timing_map.mk 0xF00F 0x3007 SH_TIMING_INT_ARITH, -- CMP/GT
  sh_opcode_timing_map.mk 0xF00F 0x4015 SH_TIMING_INT_ARITH, -- CMP/PL
  sh_opcode_timing_map.mk 0xF00F 0x4011 SH_TIMING_INT_ARITH, -- CMP/PZ
  sh_opcode_timing_map.mk 0xF00F 0x200C SH_TIMING_INT_ARITH, -- CMP/STR
  -- Integer logical (AND, OR, XOR, etc.)
  sh_opcode_timing_map.mk 0xF00F 0x2009 SH_TIMING_INT_LOGIC, -- AND
  sh_opcode_timing_map.mk 0xF00F 0x200B SH_TIMING_INT_LOGIC, -- OR
  sh_opcode_timing_map.mk 0xF00F 0x200A SH_TIMING_INT_LOGIC, -- XOR
  sh_opcode_timing_map.mk 0xF00F 0x2001 SH_TIMING_INT_LOGIC, -- STS MACH
  sh_opcode_timing_map.mk 0xF00F 0x2011 SH_TIMING_INT_LOGIC, -- STS MACL
  sh_opcode_timing_map.mk 0xF00F 0x0029 SH_TIMING_INT_LOGIC, -- AND #imm, R0
  sh_opcode_timing_map.mk 0xF00F 0x002B SH_TIMING_INT_LOGIC, -- OR #imm, R0
  sh_opcode_timing_map.mk 0xF00F 0x002A SH_TIMING_INT_LOGIC, -- XOR #imm, R0
  sh_opcode_timing_map.mk 0xF00F 0x6009 SH_TIMING_INT_LOGIC, -- NOT
  sh_opcode_timing_map.mk 0xF00F 0x2008 SH_TIMING_INT_LOGIC, -- TST
  sh_opcode_timing_map.mk 0xF00F 0x0028 SH_TIMING_INT_LOGIC, -- TST #imm, R0
  -- Shift operations
  sh_opcode_timing_map.mk 0xF00F 0x4000 SH_TIMING_SHIFT, -- SHLL
  sh_opcode_timing_map.mk 0xF00F 0x4001 SH_TIMING_SHIFT, -- SHAL
  sh_opcode_timing_map.mk 0xF00F 0x4008 SH_TIMING_SHIFT, -- SHLL2
  sh_opcode_timing_map.mk 0xF00F 0x4018 SH_TIMING_SHIFT, -- SHLL8
  sh_opcode_timing_map.mk 0xF00F 0x4028 SH_TIMING_SHIFT, -- SHLL16
  sh_opcode_timing_map.mk 0xF00F 0x4020 SH_TIMING_SHIFT, -- SHLR
  sh_opcode_timing_map.mk 0xF00F 0x4021 SH_TIMING_SHIFT, -- SHAR
  sh_opcode_timing_map.mk 0xF00F 0x4010 SH_TIMING_SHIFT, -- DT
  sh_opcode_timing_map.mk 0xF00F 0x4029 SH_TIMING_SHIFT, -- ROTL
  sh_opcode_timing_map.mk 0xF00F 0x4028 SH_TIMING_SHIFT, -- ROTCL
  sh_opcode_timing_map.mk 0xF00F 0x4024 SH_TIMING_SHIFT, -- ROTCR
  sh_opcode_timing_map.mk 0xF00F 0x4025 SH_TIMING_SHIFT, -- ROTR
  sh_opcode_timing_map.mk 0xF00F 0x400C SH_TIMING_SHIFT, -- SHLR2
  sh_opcode_timing_map.mk 0xF00F 0x401C SH_TIMING_SHIFT, -- SHLR8
  sh_opcode_timing_map.mk 0xF00F 0x402C SH_TIMING_SHIFT, -- SHLR16
  -- Branch operations
  sh_opcode_timing_map.mk 0xF000 0x8900 SH_TIMING_BRANCH, -- BT
  sh_opcode_timing_map.mk 0xF000 0x8B00 SH_TIMING_BRANCH, -- BF
  sh_opcode_timing_map.mk 0xF000 0x8D00 SH_TIMING_BRANCH, -- BT/S
  sh_opcode_timing_map.mk 0xF000 0x8F00 SH_TIMING_BRANCH, -- BF/S
  sh_opcode_timing_map.mk 0xF00F 0x400B SH_TIMING_BRANCH, -- JSR
  sh_opcode_timing_map.mk 0xF00F 0x402B SH_TIMING_BRANCH, -- JMP
  sh_opcode_timing_map.mk 0xFFFF 0x000B SH_TIMING_BRANCH, -- RTS
  sh_opcode_timing_map.mk 0xF0FF 0x4000 SH_TIMING_BRANCH, -- BRAF
  sh_opcode_timing_map.mk 0xF0FF 0x0023 SH_TIMING_BRANCH, -- BSRF
  -- Load operations
  sh_opcode_timing_map.mk 0xF000 0x5000 SH_TIMING_LOAD, -- MOV.L @(disp,Rm),Rn
  sh_opcode_timing_map.mk 0xF000 0x9000 SH_TIMING_LOAD_PC, -- MOV.W @(disp,PC),Rn
  sh_opcode_timing_map.mk 0xF000 0xD000 SH_TIMING_LOAD_PC, -- MOV.L @(disp,PC),Rn
  sh_opcode_timing_map.mk 0xF00F 0x6000 SH_TIMING_LOAD, -- MOV.B @Rm,Rn
  sh_opcode_timing_map.mk 0xF00F 0x6001 SH_TIMING_LOAD, -- MOV.W @Rm,Rn
  sh_opcode_timing_map.mk 0xF00F 0x6002 SH_TIMING_LOAD, -- MOV.L @Rm,Rn
  sh_opcode_timing_map.mk 0xF00F 0x6004 SH_TIMING_LOAD, -- MOV.B @Rm+,Rn
  sh_opcode_timing_map.mk 0xF00F 0x6005 SH_TIMING_LOAD, -- MOV.W @Rm+,Rn
  sh_opcode_timing_map.mk 0xF00F 0x6006 SH_TIMING_LOAD, -- MOV.L @Rm+,Rn
  -- Store operations
  sh_opcode_timing_map.mk 0xF000 0x1000 SH_TIMING_STORE, -- MOV.L Rm,@(disp,Rn)
  sh_opcode_timing_map.mk 0xF00F 0x2000 SH_TIMING_STORE, -- MOV.B Rm,@Rn
  sh_opcode_timing_map.mk 0xF00F 0x2001 SH_TIMING_STORE, -- MOV.W Rm,@Rn
  sh_opcode_timing_map.mk 0xF00F 0x2002 SH_TIMING_STORE, -- MOV.L Rm,@Rn
  sh_opcode_timing_map.mk 0xF00F 0x2004 SH_TIMING_STORE, -- MOV.B Rm,@-Rn
  sh_opcode_timing_map.mk 0xF00F 0x2005 SH_TIMING_STORE, -- MOV.W Rm,@-Rn
  sh_opcode_timing_map.mk 0xF00F 0x2006 SH_TIMING_STORE, -- MOV.L Rm,@-Rn
  sh_opcode_timing_map.mk 0xF00F 0x0004 SH_TIMING_STORE, -- MOV.B Rm,@(R0,Rn)
  sh_opcode_timing_map.mk 0xF00F 0x0005 SH_TIMING_STORE, -- MOV.W Rm,@(R0,Rn)
  sh_opcode_timing_map.mk 0xF00F 0x0006 SH_TIMING_STORE, -- MOV.L Rm,@(R0,Rn)
  -- Load immediate
  sh_opcode_timing_map.mk 0xF000 0xE000 SH_TIMING_LOAD_IMM, -- MOV #imm,Rn
  -- System register operations
  sh_opcode_timing_map.mk 0xF0FF 0x0032 SH_TIMING_SYS_REG, -- STC SR,Rn
  sh_opcode_timing_map.mk 0xF0FF 0x0022 SH_TIMING_SYS_REG, -- STC GBR,Rn
  sh_opcode_timing_map.mk 0xF0FF 0x0012 SH_TIMING_SYS_REG, -- STC VBR,Rn
  sh_opcode_timing_map.mk 0xF0FF 0x0042 SH_TIMING_SYS_REG, -- STC SSR,Rn
  sh_opcode_timing_map.mk 0xF0FF 0x0052 SH_TIMING_SYS_REG, -- STC SPC,Rn
  sh_opcode_timing_map.mk 0xF0FF 0x003A SH_TIMING_SYS_REG, -- STC SR,@-Rn
  sh_opcode_timing_map.mk 0xF0FF 0x002A SH_TIMING_SYS_REG, -- STC GBR,@-Rn
  sh_opcode_timing_map.mk 0xF0FF 0x001A SH_TIMING_SYS_REG, -- STC VBR,@-Rn
  sh_opcode_timing_map.mk 0xF0FF 0x0036 SH_TIMING_SYS_REG, -- LDC Rm,SR
  sh_opcode_timing_map.mk 0xF0FF 0x0026 SH_TIMING_SYS_REG, -- LDC Rm,GBR
  sh_opcode_timing_map.mk 0xF0FF 0x0016 SH_TIMING_SYS_REG, -- LDC Rm,VBR
  sh_opcode_timing_map.mk 0xF0FF 0x003E SH_TIMING_SYS_REG, -- LDC @Rm+,SR
  sh_opcode_timing_map.mk 0xF0FF 0x002E SH_TIMING_SYS_REG, -- LDC @Rm+,GBR
  sh_opcode_timing_map.mk 0xF0FF 0x001E SH_TIMING_SYS_REG, -- LDC @Rm+,VBR
  -- FPU conversion
  sh_opcode_timing_map.mk 0xF0FF 0xF02D SH_TIMING_FCNV, -- FLOAT FPUL,FRn
  sh_opcode_timing_map.mk 0xF0FF 0xF03D SH_TIMING_FCNV, -- FTRC FRm,FPUL
  sh_opcode_timing_map.mk 0xF0FF 0xF05D SH_TIMING_FCNV, -- FCNVDS
  sh_opcode_timing_map.mk 0xF0FF 0xF0BD SH_TIMING_FCNV, -- FCNVSD
  -- FPU move
  sh_opcode_timing_map.mk 0xF00F 0xF00C SH_TIMING_FMOVE, -- FMOV FRm,FRn
  sh_opcode_timing_map.mk 0xF00F 0xF008 SH_TIMING_FMOVE, -- FMOV @Rm,FRn
  sh_opcode_timing_map.mk 0xF00F 0xF00A SH_TIMING_FMOVE, -- FMOV FRm,@Rn
  sh_opcode_timing_map.mk 0xF00F 0xF009 SH_TIMING_FMOVE, -- FMOV @Rm+,FRn
  sh_opcode_timing_map.mk 0xF00F 0xF00B SH_TIMING_FMOVE, -- FMOV FRm,@-Rn
  -- FPU arithmetic
  sh_opcode_timing_map.mk 0xF00F 0xF000 SH_TIMING_FARITH, -- FADD FRm,FRn
  sh_opcode_timing_map.mk 0xF00F 0xF001 SH_TIMING_FARITH, -- FSUB FRm,FRn
  sh_opcode_timing_map.mk 0xF00F 0xF002 SH_TIMING_FARITH, -- FMUL FRm,FRn
  sh_opcode_timing_map.mk 0xF00F 0xF003 SH_TIMING_FARITH, -- FDIV FRm,FRn
  sh_opcode_timing_map.mk 0xF00F 0xF00E SH_TIMING_FARITH, -- FMAC FR0,FRm,FRn
  sh_opcode_timing_map.mk 0xF0FF 0xF04D SH_TIMING_FARITH, -- FNEG FRn
  sh_opcode_timing_map.mk 0xF0FF 0xF05D SH_TIMING_FARITH, -- FABS FRn
  -- FPU comparisons
  sh_opcode_timing_map.mk 0xF00F 0xF004 SH_TIMING_FCOMP, -- FCMP/EQ FRm,FRn
  sh_opcode_timing_map.mk 0xF00F 0xF005 SH_TIMING_FCOMP, -- FCMP/GT FRm,FRn
  -- Prefetch
  sh_opcode_timing_map.mk 0xF0FF 0x0083 SH_TIMING_PREF, -- PREF @Rn
  -- Multi-operations
  sh_opcode_timing_map.mk 0xF00F 0x000F SH_TIMING_MULTI_OP, -- MAC.L @Rm+,@Rn+
  sh_opcode_timing_map.mk 0xF00F 0x400F SH_TIMING_MULTI_OP, -- MAC.W @Rm+,@Rn+
  -- Traps and exceptions
  sh_opcode_timing_map.mk 0xFF00 0xC300 SH_TIMING_TRAP, -- TRAPA #imm
  -- Return from exception
  sh_opcode_timing_map.mk 0xFFFF 0x002B SH_TIMING_RTE, -- RTE
  -- Clear MAC
  sh_opcode_timing_map.mk 0xFFFF 0x0028 SH_TIMING_CLRMAC, -- CLRMAC
  -- No operation
  sh_opcode_timing_map.mk 0xFFFF 0x0009 SH_TIMING_NOP, -- NOP
  -- Atomic store
  sh_opcode_timing_map.mk 0xF0FF 0x00C3 SH_TIMING_MOVCA, -- MOVCA.L R0,@Rn
  -- Test and set
  sh_opcode_timing_map.mk 0xF0FF 0x401B SH_TIMING_TAS, -- TAS.B @Rn
  -- Division
  sh_opcode_timing_map.mk 0xF0FF 0x4015 SH_TIMING_DIV, -- DIV1 Rm,Rn
  -- FPU advanced operations
  sh_opcode_timing_map.mk 0xF0FF 0xF06D SH_TIMING_FSQRT, -- FSQRT FRn
  sh_opcode_timing_map.mk 0xF0FF 0xF07D SH_TIMING_FSQRT, -- FSRRA FRn
  sh_opcode_timing_map.mk 0xF0FF 0xF0ED SH_TIMING_FIPR, -- FIPR FVm,FVn
  sh_opcode_timing_map.mk 0xF0FF 0xF0FD SH_TIMING_FTRV, -- FTRV XMTRX,FVn
  -- MMU operations
  sh_opcode_timing_map.mk 0xF0FF 0x0038 SH_TIMING_LDTLB, -- LDTLB
  -- Default - for any opcodes not explicitly matched
  sh_opcode_timing_map.mk 0x0000 0x0000 SH_TIMING_INT_ARITH
]

/-- The `for` loop of `sh_get_timing_type`, run over the remaining entries:
the first entry whose masked opcode equals its pattern decides; when the
entries are exhausted the fall-through `return SH_TIMING_INT_ARITH` applies. -/
def sh_timing_scan : List sh_opcode_timing_map → Nat → sh_timing_type
  | [], _ => SH_TIMING_INT_ARITH
  | e :: es, opcode =>
    if opcode &&& e.mask = e.pattern then e.timing_type else sh_timing_scan es opcode

/-- Get the timing type for a specific opcode. -/
def sh_get_timing_type (opcode : Nat) : sh_timing_type :=
  sh_timing_scan sh_timing_map opcode

/-! ## Instruction cost -/

/-- Get the total cycles for an instruction, including potential pipeline stalls. -/
def sh_get_instruction_cycles (opcode : Nat) (is_sh4 : Bool) (in_delay_slot : Bool) : Int :=
  let timing := sh_get_timing_type opcode
  -- Base cycles for the instruction
  let cycles : Int := if is_sh4 then table_at sh4_insn_timings timing else table_at sh3_insn_timings timing
  -- Add pipeline stall penalty if applicable
  let cycles := cycles + (if is_sh4 then table_at sh4_pipeline_stalls timing else table_at sh3_pipeline_stalls timing)
  -- Add delay slot penalty if in a delay slot
  let cycles :=
    if in_delay_slot then
      cycles + (if is_sh4 then table_at sh4_pipeline_stalls SH_TIMING_EXEC_SLOT
                else table_at sh3_pipeline_stalls SH_TIMING_EXEC_SLOT)
    else cycles
  -- Special case for DIV1 on SH-3
  let cycles :=
    if !is_sh4 && timing == SH_TIMING_DIV then 2 + table_at sh3_pipeline_stalls SH_TIMING_DIV
    else cycles
  -- Special case for MAC operations
  let cycles :=
    if timing == SH_TIMING_MAC then
      if opcode &&& 0xF00F = 0x000F then
        if !is_sh4 then cycles + 5 else cycles + 2
      else cycles
    else cycles
  -- Special case for FMAC on SH-4
  let cycles :=
    if is_sh4 && timing == SH_TIMING_FARITH && decide (opcode &&& 0xF00F = 0xF00E) then cycles + 1
    else cycles
  -- Special case for FSRRA
  let cycles :=
    if timing == SH_TIMING_FSQRT && decide (opcode &&& 0xF0FF = 0xF07D) then
      if is_sh4 then cycles + 5 else cycles + 10
    else cycles
  cycles

/-! ## Memory system -/

/-- Enhanced memory system timing structure. -/
structure sh34_memory_timing where
  -- Base memory access latencies
  cached_read : Int
  cached_write : Int
  uncached_read : Int
  uncached_write : Int
  on_chip_ram_read : Int
  on_chip_ram_write : Int
  on_chip_reg_read : Int
  on_chip_reg_write : Int
  -- New timing fields for better accuracy
  cache_line_fill : Int
  cache_miss_penalty : Int
  unaligned_penalty : Int
  burst_first_access : Int
  burst_subsequent : Int
  tlb_miss_penalty : Int
  -- Wait state configuration
  area0_wait_states : Int
  area1_wait_states : Int
  area2_wait_states : Int
  area3_wait_states : Int
  area6_wait_states : Int
  -- Special access modes
  sdram_page_hit : Int
  sdram_page_miss : Int
  sdram_refresh_cycle : Int

/-- Enhanced SH-3 memory timing values. -/
def sh3_memory_timing : sh34_memory_timing where
  cached_read := 1
  cached_write := 1
  uncached_read := 3
  uncached_write := 1
  on_chip_ram_read := 1
  on_chip_ram_write := 1
  on_chip_reg_read := 1
  on_chip_reg_write := 1
  cache_line_fill := 4
  cache_miss_penalty := 1
  unaligned_penalty := 1
  burst_first_access := 2
  burst_subsequent := 1
  tlb_miss_penalty := 4
  area0_wait_states := 2
  area1_wait_states := 0
  area2_wait_states := 2
  area3_wait_states := 3
  area6_wait_states := 4
  sdram_page_hit := 1
  sdram_page_miss := 5
  sdram_refresh_cycle := 8

/-- Enhanced SH-4 memory timing values. -/
def sh4_memory_timing : sh34_memory_timing where
  cached_read := 0
  cached_write := 0
  uncached_read := 1
  uncached_write := 0
  on_chip_ram_read := 0
  on_chip_ram_write := 0
  on_chip_reg_read := 1
  on_chip_reg_write := 1
  cache_line_fill := 3
  cache_miss_penalty := 1
  unaligned_penalty := 1
  burst_first_access := 1
  burst_subsequent := 0
  tlb_miss_penalty := 5
  area0_wait_states := 2
  area1_wait_states := 0
  area2_wait_states := 1
  area3_wait_states := 2
  area6_wait_states := 3
  sdram_page_hit := 0
  sdram_page_miss := 3
  sdram_refresh_cycle := 5

/-- Memory region type definition for improved memory map handling. -/
inductive sh_memory_region_type where
  | SH_REGION_CACHED -- Cached memory region
  | SH_REGION_UNCACHED -- Uncached memory region
  | SH_REGION_ONCHIP_RAM -- On-chip RAM
  | SH_REGION_ONCHIP_REG -- On-chip register
  | SH_REGION_BIOS -- BIOS/Boot ROM (Area 0)
  | SH_REGION_MAIN_MEM -- Main memory (Area 1)
  | SH_REGION_AREA2 -- Area 2 (CS2)
  | SH_REGION_AREA3 -- Area 3 (CS3)
  | SH_REGION_AREA6 -- Area 6 (CS6)
  | SH_REGION_CCR -- Cache control registers
  | SH_REGION_STORE_QUEUE -- Store queue
  | SH_REGION_P4_ADDR_ARRAY -- P4 control region address array
  deriving DecidableEq, Repr

open sh_memory_region_type

/-- Track the last accessed memory address and access type for
context-sensitive timing. -/
structure sh_memory_context where
  last_address : Nat -- Last accessed memory address
  last_was_write : Bool -- Whether last access was a write
  in_burst_mode : Bool -- Whether currently in burst mode
  burst_count : Nat -- Number of accesses in current burst
  last_sdram_page : Nat -- Last accessed SDRAM page
  tlb_cache_valid : Bool -- Whether TLB cache entry is valid
  tlb_cache_addr : Nat -- Address of cached TLB entry
  deriving DecidableEq, Repr

/-- The initial value of the file-level context. -/
def sh_mem_context : sh_memory_context where
  last_address := 0
  last_was_write := false
  in_burst_mode := false
  burst_count := 0
  last_sdram_page := 0
  tlb_cache_valid := false
  tlb_cache_addr := 0

/-- Detect memory region type based on address. -/
def sh_detect_memory_region (address : Nat) (is_sh4 : Bool) : sh_memory_region_type :=
  -- P1/P2/P3 address masking (without cache/TLB effects)
  let masked_addr := address &&& 0x1FFFFFFF
  if address ≥ 0xE0000000 then
    if address ≤ 0xE3FFFFFF then SH_REGION_STORE_QUEUE else SH_REGION_ONCHIP_REG
  else if masked_addr ≥ 0x1C000000 ∧ masked_addr ≤ 0x1FFFFFFF then
    SH_REGION_ONCHIP_RAM
  else if address < 0x80000000 then
    if masked_addr < 0x00100000 then SH_REGION_BIOS
    else if masked_addr < 0x01000000 then SH_REGION_MAIN_MEM
    else if masked_addr < 0x05000000 then SH_REGION_AREA2
    else if masked_addr < 0x07000000 then SH_REGION_AREA3
    else if masked_addr ≥ 0x18000000 ∧ masked_addr < 0x1C000000 then SH_REGION_AREA6
    else SH_REGION_CACHED
  else if address < 0xC0000000 then
    SH_REGION_UNCACHED
  else
    if address ≥ 0xF0000000 ∧ address < 0xF1000000 then SH_REGION_CCR
    else if address ≥ 0xF6000000 ∧ address < 0xF8000000 then SH_REGION_P4_ADDR_ARRAY
    else SH_REGION_ONCHIP_REG

/-- Check if access would be a burst continuation (`last_address + size` is
32-bit unsigned arithmetic). -/
def sh_is_burst_continuation (address last_address size : Nat) : Bool :=
  decide ((last_address + size) % 4294967296 = address) && decide (last_address &&& 0x1F ≠ 0x1C)

/-- Get SDRAM page from address. -/
def sh_get_sdram_page (address : Nat) : Nat :=
  (address &&& 0x1FFFFFFF) >>> 11

/-- Enhanced memory cycles calculation function.  The file-level context is
the first argument and the second component of the result; `access_size - 1`
is 32-bit unsigned arithmetic and `~0x1F` is the 32-bit mask `0xFFFFFFE0`. -/
def sh_get_memory_cycles (ctx : sh_memory_context) (address : Nat) (is_write is_sh4 is_cached
    is_code : Bool) (access_size : Nat) : Int × sh_memory_context :=
  -- Determine region type
  let region := sh_detect_memory_region address is_sh4
  -- Select appropriate timing structure
  let mem_timing := if is_sh4 then sh4_memory_timing else sh3_memory_timing
  -- Check for unaligned access (address not aligned to access size)
  let is_unaligned : Bool := (address &&& ((access_size + 4294967295) % 4294967296)) != 0
  -- Check for potential burst mode
  let can_use_burst : Bool := false
  let is_burst_continuation : Bool :=
    can_use_burst && sh_is_burst_continuation address ctx.last_address access_size
      && !ctx.last_was_write
  let should_reset_burst : Bool :=
    ((address &&& 0xFFFFFFE0) != (ctx.last_address &&& 0xFFFFFFE0))
      || (ctx.last_was_write != is_write)
  let ctx := if should_reset_burst then { ctx with in_burst_mode := false, burst_count := 0 } else ctx
  -- Check for SDRAM page hit/miss
  let current_sdram_page := sh_get_sdram_page address
  let is_page_hit : Bool := current_sdram_page == ctx.last_sdram_page
  let is_page_miss : Bool := !is_page_hit && ctx.last_address != 0
  -- Check for TLB miss simulation
  let is_tlb_hit : Bool := true
  let is_tlb_miss : Bool := !is_tlb_hit && decide (address < 0x80000000)
  -- Apply base cycle penalty based on region type and operation
  let cycle_penalty : Int :=
    match region with
    | SH_REGION_CACHED =>
      if is_cached then
        (if is_write then mem_timing.cached_write else mem_timing.cached_read)
      else
        (if is_write then mem_timing.uncached_write else mem_timing.uncached_read)
    | SH_REGION_UNCACHED =>
      if is_write then mem_timing.uncached_write else mem_timing.uncached_read
    | SH_REGION_ONCHIP_RAM =>
      if is_write then mem_timing.on_chip_ram_write else mem_timing.on_chip_ram_read
    | SH_REGION_ONCHIP_REG | SH_REGION_CCR | SH_REGION_P4_ADDR_ARRAY =>
      if is_write then mem_timing.on_chip_reg_write else mem_timing.on_chip_reg_read
    | SH_REGION_STORE_QUEUE =>
      if is_write then 1 else 2
    | SH_REGION_BIOS =>
      if is_write then mem_timing.uncached_write + mem_timing.area0_wait_states
      else mem_timing.uncached_read + mem_timing.area0_wait_states
    | SH_REGION_MAIN_MEM =>
      if is_page_hit then mem_timing.sdram_page_hit
      else if is_page_miss then mem_timing.sdram_page_miss
      else if is_write then mem_timing.uncached_write + mem_timing.area1_wait_states
      else mem_timing.uncached_read + mem_timing.area1_wait_states
    | SH_REGION_AREA2 =>
      if is_write then mem_timing.uncached_write + mem_timing.area2_wait_states
      else mem_timing.uncached_read + mem_timing.area2_wait_states
    | SH_REGION_AREA3 =>
      if is_write then mem_timing.uncached_write + mem_timing.area3_wait_states
      else mem_timing.uncached_read + mem_timing.area3_wait_states
    | SH_REGION_AREA6 =>
      if is_write then mem_timing.uncached_write + mem_timing.area6_wait_states
      else mem_timing.uncached_read + mem_timing.area6_wait_states
  -- Cache disabled: forced bypass cost
  let cycle_penalty : Int :=
    if !is_cached then
      (if is_page_hit then 6 else 15) + (1 + mem_timing.cache_line_fill)
    else cycle_penalty
  -- Unaligned access penalty
  let cycle_penalty : Int :=
    if is_unaligned && decide (access_size > 1) then
      if !is_sh4 then cycle_penalty + mem_timing.unaligned_penalty + mem_timing.unaligned_penalty
      else cycle_penalty + mem_timing.unaligned_penalty
    else cycle_penalty
  -- TLB miss penalty
  let cycle_penalty : Int :=
    if is_tlb_miss then cycle_penalty + mem_timing.tlb_miss_penalty else cycle_penalty
  -- Update context for next access
  let ctx := { ctx with last_address := address, last_was_write := is_write,
                        in_burst_mode := can_use_burst && !is_write }
  -- Update burst count
  if is_burst_continuation then
    -- In burst mode, subsequent accesses return early
    ((if is_sh4 then 0 else 1), ctx)
  else
    let first_in_burst : Bool := can_use_burst && !is_write
    let cycle_penalty : Int :=
      if first_in_burst then mem_timing.burst_first_access else cycle_penalty
    let ctx := if first_in_burst then { ctx with in_burst_mode := true, burst_count := 1 } else ctx
    -- Update SDRAM page tracking
    let ctx := { ctx with last_sdram_page := current_sdram_page }
    -- Update TLB cache simulation
    let ctx :=
      if is_tlb_miss then { ctx with tlb_cache_valid := true, tlb_cache_addr := address &&& 0xFFFFF000 }
      else ctx
    (cycle_penalty, ctx)

/-! ## Reading the classifier off the table

`scan_under M P` computes, from the table alone, what the scan answers for
every opcode `w` with `w &&& M = P`: an entry whose pattern disagrees with
`P` on the common mask bits can never match such a word, an entry whose mask
lies inside `M` and whose pattern agrees with `P` always matches.  When an
entry is neither, the answer is `none`. -/

/-- The category decided by the table for all opcodes `w` with `w &&& M = P`,
when the table decides it for all of them alike. -/
def scan_under (M P : Nat) : List sh_opcode_timing_map → Option sh_timing_type
  | [] => some SH_TIMING_INT_ARITH
  | e :: es =>
    if e.pattern &&& M ≠ P &&& e.mask then scan_under M P es
    else if e.mask &&& M = e.mask ∧ P &&& e.mask = e.pattern then some e.timing_type
    else none

/-! ## Parts of the memory latency evaluator -/

/-- The penalty `sh_get_memory_cycles` holds after its region `switch` and
its cache-disabled override, before the unaligned charge is added: the same
statements of the source, with the same page-hit and page-miss flags. -/
def sh_memory_base_penalty (ctx : sh_memory_context) (address : Nat)
    (is_write is_sh4 is_cached : Bool) : Int :=
  let mem_timing := if is_sh4 then sh4_memory_timing else sh3_memory_timing
  let is_page_hit : Bool := sh_get_sdram_page address == ctx.last_sdram_page
  let is_page_miss : Bool := !is_page_hit && ctx.last_address != 0
  let cycle_penalty : Int :=
    match sh_detect_memory_region address is_sh4 with
    | SH_REGION_CACHED =>
      if is_cached then
        (if is_write then mem_timing.cached_write else mem_timing.cached_read)
      else
        (if is_write then mem_timing.uncached_write else mem_timing.uncached_read)
    | SH_REGION_UNCACHED =>
      if is_write then mem_timing.uncached_write else mem_timing.uncached_read
    | SH_REGION_ONCHIP_RAM =>
      if is_write then mem_timing.on_chip_ram_write else mem_timing.on_chip_ram_read
    | SH_REGION_ONCHIP_REG | SH_REGION_CCR | SH_REGION_P4_ADDR_ARRAY =>
      if is_write then mem_timing.on_chip_reg_write else mem_timing.on_chip_reg_read
    | SH_REGION_STORE_QUEUE =>
      if is_write then 1 else 2
    | SH_REGION_BIOS =>
      if is_write then mem_timing.uncached_write + mem_timing.area0_wait_states
      else mem_timing.uncached_read + mem_timing.area0_wait_states
    | SH_REGION_MAIN_MEM =>
      if is_page_hit then mem_timing.sdram_page_hit
      else if is_page_miss then mem_timing.sdram_page_miss
      else if is_write then mem_timing.uncached_write + mem_timing.area1_wait_states
      else mem_timing.uncached_read + mem_timing.area1_wait_states
    | SH_REGION_AREA2 =>
      if is_write then mem_timing.uncached_write + mem_timing.area2_wait_states
      else mem_timing.uncached_read + mem_timing.area2_wait_states
    | SH_REGION_AREA3 =>
      if is_write then mem_timing.uncached_write + mem_timing.area3_wait_states
      else mem_timing.uncached_read + mem_timing.area3_wait_states
    | SH_REGION_AREA6 =>
      if is_write then mem_timing.uncached_write + mem_timing.area6_wait_states
      else mem_timing.uncached_read + mem_timing.area6_wait_states
  if !is_cached then (if is_page_hit then 6 else 15) + (1 + mem_timing.cache_line_fill)
  else cycle_penalty

/-- The unaligned charge of `sh_get_memory_cycles`: the variant's unaligned
penalty, twice on SH-3, when the mask test `address & (access_size - 1)` is
non-zero and the width is above 1. -/
def sh_memory_unaligned_charge (address : Nat) (is_sh4 : Bool) (access_size : Nat) : Int :=
  if address &&& ((access_size + 4294967295) % 4294967296) ≠ 0 ∧ access_size > 1 then
    (if is_sh4 then sh4_memory_timing.unaligned_penalty
      else sh3_memory_timing.unaligned_penalty + sh3_memory_timing.unaligned_penalty)
  else 0

/-- The timing record `sh_get_memory_cycles` selects for a variant
(`mem_timing` in the source). -/
def sh_memory_timing_of (is_sh4 : Bool) : sh34_memory_timing :=
  if is_sh4 then sh4_memory_timing else sh3_memory_timing

/-! ## Access-shape predicates -/

/-- Get memory access size based on the opcode. -/
def sh_get_memory_access_size (opcode : Nat) : Nat :=
  -- Byte access instructions
  if opcode &&& 0xF00F = 0x0004 ∨ -- MOV.B Rm,@(R0,Rn)
      opcode &&& 0xF00F = 0x000C ∨ -- MOV.B @(R0,Rm),Rn
      opcode &&& 0xF00F = 0x2000 ∨ -- MOV.B Rm,@Rn
      opcode &&& 0xF00F = 0x2004 ∨ -- MOV.B Rm,@-Rn
      opcode &&& 0xF00F = 0x6000 ∨ -- MOV.B @Rm,Rn
      opcode &&& 0xF00F = 0x6004 ∨ -- MOV.B @Rm+,Rn
      opcode &&& 0xF0FF = 0x401B then -- TAS.B @Rn
    1
  -- Word access instructions
  else if opcode &&& 0xF00F = 0x0005 ∨ -- MOV.W Rm,@(R0,Rn)
      opcode &&& 0xF00F = 0x000D ∨ -- MOV.W @(R0,Rm),Rn
      opcode &&& 0xF00F = 0x2001 ∨ -- MOV.W Rm,@Rn
      opcode &&& 0xF00F = 0x2005 ∨ -- MOV.W Rm,@-Rn
      opcode &&& 0xF00F = 0x6001 ∨ -- MOV.W @Rm,Rn
      opcode &&& 0xF00F = 0x6005 ∨ -- MOV.W @Rm+,Rn
      opcode &&& 0xF000 = 0x9000 then -- MOV.W @(disp,PC),Rn
    2
  -- Long word access instructions
  else if opcode &&& 0xF00F = 0x0006 ∨ -- MOV.L Rm,@(R0,Rn)
      opcode &&& 0xF00F = 0x000E ∨ -- MOV.L @(R0,Rm),Rn
      opcode &&& 0xF00F = 0x2002 ∨ -- MOV.L Rm,@Rn
      opcode &&& 0xF00F = 0x2006 ∨ -- MOV.L Rm,@-Rn
      opcode &&& 0xF00F = 0x6002 ∨ -- MOV.L @Rm,Rn
      opcode &&& 0xF00F = 0x6006 ∨ -- MOV.L @Rm+,Rn
      opcode &&& 0xF000 = 0x5000 ∨ -- MOV.L @(disp,Rm),Rn
      opcode &&& 0xF000 = 0x1000 ∨ -- MOV.L Rm,@(disp,Rn)
      opcode &&& 0xF000 = 0xD000 ∨ -- MOV.L @(disp,PC),Rn
      opcode &&& 0xF0FF = 0x00C3 ∨ -- MOVCA.L R0,@Rn
      opcode &&& 0xF0FF = 0x0083 then -- PREF @Rn (treats as 32-bit access)
    4
  -- FPU memory access instructions
  else if opcode &&& 0xF00F = 0xF008 ∨ -- FMOV @Rm,FRn
      opcode &&& 0xF00F = 0xF009 ∨ -- FMOV @Rm+,FRn
      opcode &&& 0xF00F = 0xF00A ∨ -- FMOV FRm,@Rn
      opcode &&& 0xF00F = 0xF00B then -- FMOV FRm,@-Rn
    4
  -- Default to 4 bytes for other instructions
  else 4

/-- Determine if an instruction is accessing memory. -/
def sh_is_memory_access (opcode : Nat) : Bool :=
  let op_class := opcode &&& 0xF000
  -- MOV.L @(disp,Rm),Rn and MOV.L Rm,@(disp,Rn)
  if op_class = 0x5000 ∨ op_class = 0x1000 then true
  -- MOV.W @(disp,PC),Rn and MOV.L @(disp,PC),Rn
  else if op_class = 0x9000 ∨ op_class = 0xD000 then true
  -- Check for other memory access patterns
  else if opcode &&& 0xF00F = 0x6000 ∨ -- MOV.B @Rm,Rn
      opcode &&& 0xF00F = 0x6001 ∨ -- MOV.W @Rm,Rn
      opcode &&& 0xF00F = 0x6002 ∨ -- MOV.L @Rm,Rn
      opcode &&& 0xF00F = 0x6004 ∨ -- MOV.B @Rm+,Rn
      opcode &&& 0xF00F = 0x6005 ∨ -- MOV.W @Rm+,Rn
      opcode &&& 0xF00F = 0x6006 ∨ -- MOV.L @Rm+,Rn
      opcode &&& 0xF00F = 0x2000 ∨ -- MOV.B Rm,@Rn
      opcode &&& 0xF00F = 0x2001 ∨ -- MOV.W Rm,@Rn
      opcode &&& 0xF00F = 0x2002 ∨ -- MOV.L Rm,@Rn
      opcode &&& 0xF00F = 0x2004 ∨ -- MOV.B Rm,@-Rn
      opcode &&& 0xF00F = 0x2005 ∨ -- MOV.W Rm,@-Rn
      opcode &&& 0xF00F = 0x2006 ∨ -- MOV.L Rm,@-Rn
      opcode &&& 0xF00F = 0x0004 ∨ -- MOV.B Rm,@(R0,Rn)
      opcode &&& 0xF00F = 0x0005 ∨ -- MOV.W Rm,@(R0,Rn)
      opcode &&& 0xF00F = 0x0006 ∨ -- MOV.L Rm,@(R0,Rn)
      opcode &&& 0xF00F = 0x000C ∨ -- MOV.B @(R0,Rm),Rn
      opcode &&& 0xF00F = 0x000D ∨ -- MOV.W @(R0,Rm),Rn
      opcode &&& 0xF00F = 0x000E then -- MOV.L @(R0,Rm),Rn
    true
  -- FPU memory access operations
  else if opcode &&& 0xF00F = 0xF008 ∨ -- FMOV @Rm,FRn
      opcode &&& 0xF00F = 0xF009 ∨ -- FMOV @Rm+,FRn
      opcode &&& 0xF00F = 0xF00A ∨ -- FMOV FRm,@Rn
      opcode &&& 0xF00F = 0xF00B then -- FMOV FRm,@-Rn
    true
  -- LDC/STC memory operations
  else if opcode &&& 0xF0FF = 0x401E ∨ -- LDC @Rm+,SR
      opcode &&& 0xF0FF = 0x402E ∨ -- LDC @Rm+,GBR
      opcode &&& 0xF0FF = 0x403E ∨ -- LDC @Rm+,VBR
      opcode &&& 0xF0FF = 0x404E ∨ -- LDC @Rm+,SSR
      opcode &&& 0xF0FF = 0x405E ∨ -- LDC @Rm+,SPC
      opcode &&& 0xF0FF = 0x406E ∨ -- LDC @Rm+,DBR
      opcode &&& 0xF0FF = 0x407E ∨ -- MAC access
      opcode &&& 0xF0FF = 0x408E ∨ -- LDC @Rm+,Rn_BANK
      opcode &&& 0xF0FF = 0x409E ∨ -- LDC @Rm+,Rn_BANK
      opcode &&& 0xF0FF = 0x40AE ∨ -- LDC @Rm+,Rn_BANK
      opcode &&& 0xF0FF = 0x40BE ∨ -- LDC @Rm+,Rn_BANK
      opcode &&& 0xF0FF = 0x40CE ∨ -- LDC @Rm+,Rn_BANK
      opcode &&& 0xF0FF = 0x40DE ∨ -- LDC @Rm+,Rn_BANK
      opcode &&& 0xF0FF = 0x40EE ∨ -- LDC @Rm+,Rn_BANK
      opcode &&& 0xF0FF = 0x40FE ∨ -- LDC @Rm+,Rn_BANK
      opcode &&& 0xF0FF = 0x4016 ∨ -- STC Rm,@-Rn
      opcode &&& 0xF0FF = 0x4026 ∨ -- STC GBR,@-Rn
      opcode &&& 0xF0FF = 0x4036 ∨ -- STC VBR,@-Rn
      opcode &&& 0xF0FF = 0x4046 ∨ -- STC SSR,@-Rn
      opcode &&& 0xF0FF = 0x4056 ∨ -- STC SPC,@-Rn
      opcode &&& 0xF0FF = 0x4066 then -- STC DBR,@-Rn
    true
  -- Special memory operations
  else if opcode &&& 0xF0FF = 0x0083 ∨ -- PREF @Rn
      opcode &&& 0xF0FF = 0x00C3 ∨ -- MOVCA.L R0,@Rn
      opcode &&& 0xF0FF = 0x401B then -- TAS.B @Rn
    true
  -- MAC instructions access memory
  else if opcode &&& 0xF00F = 0x000F ∨ -- MAC.L @Rm+,@Rn+
      opcode &&& 0xF00F = 0x400F then -- MAC.W @Rm+,@Rn+
    true
  else false

/-! ## Sequences of memory accesses -/

/-- The arguments of one call of `sh_get_memory_cycles`. -/
structure sh_memory_call where
  address : Nat
  is_write : Bool
  is_sh4 : Bool
  is_cached : Bool
  is_code : Bool
  access_size : Nat
  deriving DecidableEq, Repr

/-- The context left by a sequence of `sh_get_memory_cycles` calls made one
after the other, each on the context left by the previous one. -/
def sh_run_memory_calls (ctx : sh_memory_context) : List sh_memory_call → sh_memory_context
  | [] => ctx
  | c :: cs =>
    sh_run_memory_calls
      (sh_get_memory_cycles ctx c.address c.is_write c.is_sh4 c.is_cached c.is_code
        c.access_size).2 cs

/-- The facts that hold of every context the evaluator can leave: burst mode
off, no burst run, no simulated TLB entry, and the recorded page is the page
of the recorded address. -/
def sh_context_invariant (ctx : sh_memory_context) : Prop :=
  ctx.in_burst_mode = false ∧ ctx.burst_count = 0 ∧ ctx.tlb_cache_valid = false ∧
    ctx.tlb_cache_addr = 0 ∧ ctx.last_sdram_page = sh_get_sdram_page ctx.last_address

/-! ## General facts about the scan -/

theorem land_ne_of_disagree (w m p M P : Nat) (h : w &&& M = P)
    (hne : p &&& M ≠ P &&& m) : w &&& m ≠ p := by
  intro hm
  apply hne
  rw [← hm, ← h, Nat.land_assoc, Nat.land_assoc, Nat.land_comm m M]

theorem land_eq_of_agree (w m p M P : Nat) (h : w &&& M = P)
    (hsub : m &&& M = m) (hp : P &&& m = p) : w &&& m = p := by
  rw [← hp, ← h, Nat.land_assoc, Nat.land_comm M m, hsub]

theorem scan_under_sound (M P w : Nat) (h : w &&& M = P) :
    ∀ (tbl : List sh_opcode_timing_map) (c : sh_timing_type),
      scan_under M P tbl = some c → sh_timing_scan tbl w = c := by
  intro tbl
  induction tbl with
  | nil =>
    intro c hc
    simpa [scan_under, sh_timing_scan] using hc
  | cons e es ih =>
    intro c hc
    unfold scan_under at hc
    unfold sh_timing_scan
    by_cases h1 : e.pattern &&& M ≠ P &&& e.mask
    · rw [if_pos h1] at hc
      rw [if_neg (land_ne_of_disagree w e.mask e.pattern M P h h1)]
      exact ih c hc
    · rw [if_neg h1] at hc
      by_cases h2 : e.mask &&& M = e.mask ∧ P &&& e.mask = e.pattern
      · rw [if_pos h2] at hc
        rw [if_pos (land_eq_of_agree w e.mask e.pattern M P h h2.1 h2.2)]
        exact Option.some.inj hc
      · rw [if_neg h2] at hc
        cases hc

theorem type_under (M P w : Nat) (c : sh_timing_type) (h : w &&& M = P)
    (hc : scan_under M P sh_timing_map = some c) : sh_get_timing_type w = c :=
  scan_under_sound M P w h sh_timing_map c hc

theorem scan_first_match (w : Nat) :
    ∀ tbl : List sh_opcode_timing_map,
      (∃ e ∈ tbl, w &&& e.mask = e.pattern) →
      ∃ (i : Nat) (e : sh_opcode_timing_map), tbl[i]? = some e ∧ w &&& e.mask = e.pattern ∧
        (∀ (j : Nat) (e' : sh_opcode_timing_map), j < i → tbl[j]? = some e' →
          w &&& e'.mask ≠ e'.pattern) ∧
        sh_timing_scan tbl w = e.timing_type := by
  intro tbl
  induction tbl with
  | nil => intro h; obtain ⟨e, he, _⟩ := h; cases he
  | cons e0 es ih =>
    intro h
    by_cases h0 : w &&& e0.mask = e0.pattern
    · refine ⟨0, e0, by simp, h0, ?_, by simp [sh_timing_scan, h0]⟩
      intro j e' hj
      omega
    · obtain ⟨e, he, hm⟩ := h
      have hes : ∃ e ∈ es, w &&& e.mask = e.pattern := by
        rcases List.mem_cons.mp he with rfl | he'
        · exact absurd hm h0
        · exact ⟨e, he', hm⟩
      obtain ⟨i, e1, hi, hm1, hlt, hres⟩ := ih hes
      refine ⟨i + 1, e1, by simpa using hi, hm1, ?_, by simp [sh_timing_scan, h0, hres]⟩
      intro j e' hj hje
      cases j with
      | zero =>
        simp at hje
        subst hje
        exact h0
      | succ k =>
        simp at hje
        exact hlt k e' (by omega) hje

theorem scan_skip (w : Nat) :
    ∀ (l1 l2 : List sh_opcode_timing_map),
      (∀ e ∈ l1, w &&& e.mask ≠ e.pattern) →
      sh_timing_scan (l1 ++ l2) w = sh_timing_scan l2 w := by
  intro l1
  induction l1 with
  | nil => intro l2 _; rfl
  | cons e es ih =>
    intro l2 h
    have h0 : w &&& e.mask ≠ e.pattern := h e (List.mem_cons_self _ _)
    simp only [List.cons_append, sh_timing_scan, if_neg h0]
    exact ih l2 (fun e' he' => h e' (List.mem_cons_of_mem _ he'))

theorem scan_mem (w : Nat) :
    ∀ (tbl : List sh_opcode_timing_map),
      sh_timing_scan tbl w = SH_TIMING_INT_ARITH ∨
      ∃ e ∈ tbl, w &&& e.mask = e.pattern ∧ sh_timing_scan tbl w = e.timing_type := by
  intro tbl
  induction tbl with
  | nil => left; rfl
  | cons e0 es ih =>
    by_cases h0 : w &&& e0.mask = e0.pattern
    · right
      exact ⟨e0, List.mem_cons_self _ _, h0, by simp [sh_timing_scan, h0]⟩
    · rcases ih with h | ⟨e, he, hm, hr⟩
      · left; simp [sh_timing_scan, h0, h]
      · right
        exact ⟨e, List.mem_cons_of_mem _ he, hm, by simp [sh_timing_scan, h0, hr]⟩

theorem last_entry_mem :
    sh_opcode_timing_map.mk 0 0 SH_TIMING_INT_ARITH ∈ sh_timing_map := by
  decide

theorem table_split :
    sh_timing_map = sh_timing_map.dropLast ++ [sh_opcode_timing_map.mk 0 0 SH_TIMING_INT_ARITH] := by
  decide

theorem type_cases (w : Nat) :
    sh_get_timing_type w = SH_TIMING_INT_ARITH ∨
    ∃ e ∈ sh_timing_map, w &&& e.mask = e.pattern ∧ sh_get_timing_type w = e.timing_type :=
  scan_mem w sh_timing_map

theorem type_ne_of_absent (w : Nat) (c : sh_timing_type) (hc : c ≠ SH_TIMING_INT_ARITH)
    (habs : ∀ e ∈ sh_timing_map, e.timing_type ≠ c) : sh_get_timing_type w ≠ c := by
  rcases type_cases w with h | ⟨e, he, _, hr⟩
  · rw [h]; exact fun h' => hc h'.symm
  · rw [hr]; exact habs e he

theorem type_ne_mac (w : Nat) : sh_get_timing_type w ≠ SH_TIMING_MAC :=
  type_ne_of_absent w _ (by decide) (by decide)

theorem type_ne_last (w : Nat) : sh_get_timing_type w ≠ SH_TIMING_LAST :=
  type_ne_of_absent w _ (by decide) (by decide)

theorem div_entry_unique :
    ∀ e ∈ sh_timing_map, e.timing_type = SH_TIMING_DIV → e.mask = 0xF0FF ∧ e.pattern = 0x4015 := by
  decide

theorem type_div_iff (w : Nat) :
    sh_get_timing_type w = SH_TIMING_DIV ↔ w &&& 0xF0FF = 0x4015 := by
  constructor
  · intro h
    rcases type_cases w with h' | ⟨e, he, hm, hr⟩
    · rw [h'] at h; cases h
    · obtain ⟨h1, h2⟩ := div_entry_unique e he (hr ▸ h)
      rw [h1, h2] at hm
      exact hm
  · intro h
    exact type_under 0xF0FF 0x4015 w _ h (by decide)

/-! ## The opcode classifier -/

/-- C1: for every word `w` (in particular every 16-bit word),
`sh_get_timing_type w` is the category of the lowest-index entry of
`sh_timing_map` whose masked word equals its pattern.  The last entry has
mask 0 and pattern 0, so such an entry always exists; a word matching none of
the other entries is classified `SH_TIMING_INT_ARITH`, and `0x000C` is such a
word. -/
theorem C1_first_match_decides (w : Nat) :
    (∃ (i : Nat) (e : sh_opcode_timing_map), sh_timing_map[i]? = some e ∧
        w &&& e.mask = e.pattern ∧
        (∀ (j : Nat) (e' : sh_opcode_timing_map), j < i → sh_timing_map[j]? = some e' →
          w &&& e'.mask ≠ e'.pattern) ∧
        sh_get_timing_type w = e.timing_type) ∧
    sh_timing_map.getLast? = some (sh_opcode_timing_map.mk 0 0 SH_TIMING_INT_ARITH) ∧
    ((∀ e ∈ sh_timing_map.dropLast, w &&& e.mask ≠ e.pattern) →
        sh_get_timing_type w = SH_TIMING_INT_ARITH) ∧
    ((∀ e ∈ sh_timing_map.dropLast, 0x000C &&& e.mask ≠ e.pattern) ∧
        sh_get_timing_type 0x000C = SH_TIMING_INT_ARITH) := by
  refine ⟨?_, by decide, ?_, by decide, by decide⟩
  · exact scan_first_match w sh_timing_map
      ⟨sh_opcode_timing_map.mk 0 0 SH_TIMING_INT_ARITH, last_entry_mem, Nat.and_zero w⟩
  · intro h
    unfold sh_get_timing_type
    rw [table_split, scan_skip w _ _ h]
    simp [sh_timing_scan]

/-- C2: where table entries overlap the earlier entry decides.  Every word
with `w & 0xF000 = 0x3000` is integer-arithmetic (so `0x300C` is); every word
with `w & 0xF00F = 0x2001` is integer-logic (the earlier `STS MACH` entry) and
not store (the later `MOV.W Rm,@Rn` entry with the same mask and pattern);
every word with `w & 0xF0FF = 0xF05D` is FP-convert (the earlier `FCNVDS`
entry) and not FP-arithmetic (the later `FABS` entry). -/
theorem C2_earlier_entry_wins (w : Nat) :
    (w &&& 0xF000 = 0x3000 → sh_get_timing_type w = SH_TIMING_INT_ARITH) ∧
    sh_get_timing_type 0x300C = SH_TIMING_INT_ARITH ∧
    (w &&& 0xF00F = 0x2001 →
      sh_get_timing_type w = SH_TIMING_INT_LOGIC ∧ sh_get_timing_type w ≠ SH_TIMING_STORE) ∧
    (w &&& 0xF0FF = 0xF05D →
      sh_get_timing_type w = SH_TIMING_FCNV ∧ sh_get_timing_type w ≠ SH_TIMING_FARITH) ∧
    (sh_timing_map[22]? = some (sh_opcode_timing_map.mk 0xF00F 0x2001 SH_TIMING_INT_LOGIC) ∧
      sh_timing_map[65]? = some (sh_opcode_timing_map.mk 0xF00F 0x2001 SH_TIMING_STORE)) ∧
    (sh_timing_map[90]? = some (sh_opcode_timing_map.mk 0xF0FF 0xF05D SH_TIMING_FCNV) ∧
      sh_timing_map[103]? = some (sh_opcode_timing_map.mk 0xF0FF 0xF05D SH_TIMING_FARITH)) := by
  refine ⟨?_, by decide, ?_, ?_, by decide, by decide⟩
  · intro h
    exact type_under 0xF000 0x3000 w _ h (by decide)
  · intro h
    have ht := type_under 0xF00F 0x2001 w SH_TIMING_INT_LOGIC h (by decide)
    rw [ht]
    exact ⟨rfl, by decide⟩
  · intro h
    have ht := type_under 0xF0FF 0xF05D w SH_TIMING_FCNV h (by decide)
    rw [ht]
    exact ⟨rfl, by decide⟩

/-- Witness for C2 at the words `0x2001` and `0xF05D`, which both pairs of
overlapping entries match. -/
theorem C2_earlier_entry_wins_witness :
    sh_get_timing_type 0x2001 = SH_TIMING_INT_LOGIC ∧
    sh_get_timing_type 0xF05D = SH_TIMING_FCNV :=
  ⟨((C2_earlier_entry_wins 0x2001).2.2.1 (by decide)).1,
   ((C2_earlier_entry_wins 0xF05D).2.2.2.1 (by decide)).1⟩

/-! ## Instruction cost -/

/-- C3: when no special case applies (the word is not a divide-step word on
SH-3, not FMAC-shaped on SH-4 and not FSRRA-shaped), the cost is the base
cycles plus the stall cycles of the word's category in the variant's tables,
plus the variant's delay-slot stall when executing in a delay slot.  In
particular `sh_get_instruction_cycles 0x0009 SH-4 false = 1 + 0 = 1`. -/
theorem C3_table_total (w : Nat) (is_sh4 d : Bool)
    (hdiv : ¬ (is_sh4 = false ∧ sh_get_timing_type w = SH_TIMING_DIV))
    (hfmac : ¬ (is_sh4 = true ∧ w &&& 0xF00F = 0xF00E))
    (hfsrra : w &&& 0xF0FF ≠ 0xF07D) :
    sh_get_instruction_cycles w is_sh4 d =
        (if is_sh4 then table_at sh4_insn_timings (sh_get_timing_type w)
          else table_at sh3_insn_timings (sh_get_timing_type w))
        + (if is_sh4 then table_at sh4_pipeline_stalls (sh_get_timing_type w)
          else table_at sh3_pipeline_stalls (sh_get_timing_type w))
        + (if d then
            (if is_sh4 then table_at sh4_pipeline_stalls SH_TIMING_EXEC_SLOT
              else table_at sh3_pipeline_stalls SH_TIMING_EXEC_SLOT)
          else 0) ∧
    (sh_get_timing_type 0x0009 = SH_TIMING_NOP ∧
      table_at sh4_insn_timings SH_TIMING_NOP = 1 ∧
      table_at sh4_pipeline_stalls SH_TIMING_NOP = 0 ∧
      sh_get_instruction_cycles 0x0009 true false = 1) := by
  refine ⟨?_, by decide, by decide, by decide, by decide⟩
  have hmac := type_ne_mac w
  unfold sh_get_instruction_cycles
  generalize sh_get_timing_type w = c at *
  cases is_sh4 <;> cases d <;> simp_all

/-- Witness for C3 at the no-op word on SH-4 outside a delay slot. -/
theorem C3_table_total_witness :
    sh_get_instruction_cycles 0x0009 true false =
        (if true then table_at sh4_insn_timings (sh_get_timing_type 0x0009)
          else table_at sh3_insn_timings (sh_get_timing_type 0x0009))
        + (if true then table_at sh4_pipeline_stalls (sh_get_timing_type 0x0009)
          else table_at sh3_pipeline_stalls (sh_get_timing_type 0x0009))
        + (if false then
            (if true then table_at sh4_pipeline_stalls SH_TIMING_EXEC_SLOT
              else table_at sh3_pipeline_stalls SH_TIMING_EXEC_SLOT)
          else 0) :=
  (C3_table_total 0x0009 true false (by decide) (by decide) (by decide)).1

/-- C4 as stated fails: for the divide-step word `0x4015` on SH-3 the cost in
a delay slot equals the cost outside one (both are 3), although the SH-3
delay-slot stall is 1. -/
theorem C4_delay_slot_not_additive_for_div :
    sh_get_timing_type 0x4015 = SH_TIMING_DIV ∧
    table_at sh3_pipeline_stalls SH_TIMING_EXEC_SLOT = 1 ∧
    sh_get_instruction_cycles 0x4015 false true = 3 ∧
    sh_get_instruction_cycles 0x4015 false false = 3 ∧
    sh_get_instruction_cycles 0x4015 false true ≠
      sh_get_instruction_cycles 0x4015 false false
        + table_at sh3_pipeline_stalls SH_TIMING_EXEC_SLOT := by
  decide

/-- C4 (amended): for every word and variant other than a divide-step word
on SH-3, the delay-slot charge is additive: the cost in a delay slot is the
cost outside one plus the variant's delay-slot stall (1 on SH-3, 0 on SH-4);
the MAC.L, FMAC and FSRRA adjustments are added on top and keep it. -/
theorem C4_delay_slot_additive (w : Nat) (is_sh4 : Bool)
    (hdiv : ¬ (is_sh4 = false ∧ sh_get_timing_type w = SH_TIMING_DIV)) :
    sh_get_instruction_cycles w is_sh4 true =
        sh_get_instruction_cycles w is_sh4 false
          + (if is_sh4 then table_at sh4_pipeline_stalls SH_TIMING_EXEC_SLOT
              else table_at sh3_pipeline_stalls SH_TIMING_EXEC_SLOT) ∧
    table_at sh3_pipeline_stalls SH_TIMING_EXEC_SLOT = 1 ∧
    table_at sh4_pipeline_stalls SH_TIMING_EXEC_SLOT = 0 := by
  refine ⟨?_, by decide, by decide⟩
  unfold sh_get_instruction_cycles
  generalize sh_get_timing_type w = c at *
  cases is_sh4
  · have hc : c ≠ SH_TIMING_DIV := fun h => hdiv ⟨rfl, h⟩
    simp only [hc, Bool.false_eq_true, if_false, if_true, Bool.not_false, Bool.true_and,
      Bool.false_and, beq_iff_eq]
    split_ifs <;> omega
  · simp only [Bool.false_eq_true, if_false, if_true, Bool.not_true, Bool.true_and,
      Bool.false_and, beq_iff_eq, Bool.and_eq_true, decide_eq_true_eq]
    split_ifs <;> omega

/-- Witness for C4 (amended) at the FSRRA word `0xF07D` on SH-3, where an
adjustment is applied on top of the delay-slot charge. -/
theorem C4_delay_slot_additive_witness :
    sh_get_instruction_cycles 0xF07D false true =
      sh_get_instruction_cycles 0xF07D false false
        + (if false then table_at sh4_pipeline_stalls SH_TIMING_EXEC_SLOT
            else table_at sh3_pipeline_stalls SH_TIMING_EXEC_SLOT) :=
  (C4_delay_slot_additive 0xF07D false (by decide)).1

/-- C5 (the code at MAC.L-shaped words): every word with `w & 0xF00F = 0x000F`
is classified `SH_TIMING_MULTI_OP`, never `SH_TIMING_MAC`, so the MAC.L
adjustment guarded by `timing == SH_TIMING_MAC` is not applied: the cost is
the bare table total of `SH_TIMING_MULTI_OP`.  At `0x000F` this is 4 on SH-3
and 3 on SH-4 outside a delay slot, not 4 + 5 and 3 + 2. -/
theorem C5_macl_extra_cost_not_applied :
    (∀ (w : Nat) (is_sh4 d : Bool), w &&& 0xF00F = 0x000F →
      sh_get_timing_type w = SH_TIMING_MULTI_OP ∧
      sh_get_instruction_cycles w is_sh4 d =
        (if is_sh4 then table_at sh4_insn_timings SH_TIMING_MULTI_OP
          else table_at sh3_insn_timings SH_TIMING_MULTI_OP)
        + (if is_sh4 then table_at sh4_pipeline_stalls SH_TIMING_MULTI_OP
          else table_at sh3_pipeline_stalls SH_TIMING_MULTI_OP)
        + (if d then
            (if is_sh4 then table_at sh4_pipeline_stalls SH_TIMING_EXEC_SLOT
              else table_at sh3_pipeline_stalls SH_TIMING_EXEC_SLOT)
          else 0)) ∧
    sh_get_instruction_cycles 0x000F false false = 4 ∧
    sh_get_instruction_cycles 0x000F true false = 3 ∧
    sh_get_instruction_cycles 0x000F false true = 5 ∧
    sh_get_instruction_cycles 0x000F true true = 3 := by
  refine ⟨?_, by decide, by decide, by decide, by decide⟩
  intro w is_sh4 d h
  have ht := type_under 0xF00F 0x000F w SH_TIMING_MULTI_OP h (by decide)
  refine ⟨ht, ?_⟩
  unfold sh_get_instruction_cycles
  rw [ht]
  cases is_sh4 <;> cases d <;> simp

/-- C6: the divide-step words are exactly the words with
`w & 0xF0FF = 0x4015`.  On SH-3 each of them costs the fixed constant
`2 + sh3_pipeline_stalls[SH_TIMING_DIV] = 3` for both values of the
delay-slot flag, not using the table base value 6; on SH-4 they cost the
table total `2 + 1 = 3`. -/
theorem C6_div_step_cost (w : Nat) (d : Bool) :
    (sh_get_timing_type w = SH_TIMING_DIV ↔ w &&& 0xF0FF = 0x4015) ∧
    (w &&& 0xF0FF = 0x4015 →
      sh_get_instruction_cycles w false d = 2 + table_at sh3_pipeline_stalls SH_TIMING_DIV ∧
      sh_get_instruction_cycles w false d = 3 ∧
      sh_get_instruction_cycles w true d =
        table_at sh4_insn_timings SH_TIMING_DIV + table_at sh4_pipeline_stalls SH_TIMING_DIV ∧
      sh_get_instruction_cycles w true d = 3) ∧
    table_at sh3_insn_timings SH_TIMING_DIV = 6 ∧
    table_at sh3_pipeline_stalls SH_TIMING_DIV = 1 ∧
    table_at sh4_insn_timings SH_TIMING_DIV = 2 ∧
    table_at sh4_pipeline_stalls SH_TIMING_DIV = 1 := by
  refine ⟨type_div_iff w, ?_, by decide, by decide, by decide, by decide⟩
  intro h
  have ht := (type_div_iff w).mpr h
  refine ⟨?_, ?_, ?_, ?_⟩ <;> unfold sh_get_instruction_cycles <;> rw [ht] <;>
    cases d <;> simp [h] <;> decide

/-- Witness for C6 at the divide-step word `0x4015` in a delay slot. -/
theorem C6_div_step_cost_witness :
    sh_get_instruction_cycles 0x4015 false true = 3 ∧
    sh_get_instruction_cycles 0x4015 true true = 3 :=
  ⟨((C6_div_step_cost 0x4015 true).2.1 (by decide)).2.1,
   ((C6_div_step_cost 0x4015 true).2.1 (by decide)).2.2.2⟩

/-- C7: every FMAC-shaped word (`w & 0xF00F = 0xF00E`) is FP-arithmetic and
on SH-4 costs `sh4_insn_timings[FARITH] + sh4_pipeline_stalls[FARITH] + 1 = 2`
for either delay-slot flag, one cycle more than every other FP-arithmetic
word on SH-4 (which costs 1); on SH-3 no extra cycle is added and the cost is
the table total, `5 + 1 = 6` outside a delay slot. -/
theorem C7_fmac_cost (w : Nat) (d : Bool) (h : w &&& 0xF00F = 0xF00E) :
    sh_get_timing_type w = SH_TIMING_FARITH ∧
    sh_get_instruction_cycles w true d =
      table_at sh4_insn_timings SH_TIMING_FARITH
        + table_at sh4_pipeline_stalls SH_TIMING_FARITH + 1 ∧
    sh_get_instruction_cycles w true d = 2 ∧
    (∀ w' : Nat, sh_get_timing_type w' = SH_TIMING_FARITH → w' &&& 0xF00F ≠ 0xF00E →
      sh_get_instruction_cycles w' true d = 1 ∧
      sh_get_instruction_cycles w true d = sh_get_instruction_cycles w' true d + 1) ∧
    sh_get_instruction_cycles w false d =
      table_at sh3_insn_timings SH_TIMING_FARITH
        + table_at sh3_pipeline_stalls SH_TIMING_FARITH
        + (if d then table_at sh3_pipeline_stalls SH_TIMING_EXEC_SLOT else 0) ∧
    sh_get_instruction_cycles w false false = 6 := by
  have ht := type_under 0xF00F 0xF00E w SH_TIMING_FARITH h (by decide)
  have hw : sh_get_instruction_cycles w true d = 2 := by
    unfold sh_get_instruction_cycles
    rw [ht]
    cases d <;> simp [h] <;> decide
  refine ⟨ht, ?_, hw, ?_, ?_, ?_⟩
  · rw [hw]; decide
  · intro w' ht' hne
    have hw' : sh_get_instruction_cycles w' true d = 1 := by
      unfold sh_get_instruction_cycles
      rw [ht']
      cases d <;> simp [hne] <;> decide
    rw [hw, hw']
    exact ⟨rfl, rfl⟩
  · unfold sh_get_instruction_cycles
    rw [ht]
    cases d <;> simp
  · unfold sh_get_instruction_cycles
    rw [ht]
    simp
    decide

/-- Witness for C7 at the FMAC word `0xF00E` outside a delay slot. -/
theorem C7_fmac_cost_witness :
    sh_get_instruction_cycles 0xF00E true false = 2 ∧
    sh_get_instruction_cycles 0xF00E false false = 6 :=
  ⟨(C7_fmac_cost 0xF00E false (by decide)).2.2.1, (C7_fmac_cost 0xF00E false (by decide)).2.2.2.2.2⟩

/-- C8: every FSRRA-shaped word (`w & 0xF0FF = 0xF07D`) is in the
FP-square-root category and is charged a flat extra on top of the table
total: `+5` on SH-4 (`10 + 1 + 5 = 16` for either delay-slot flag) and `+10`
on SH-3 (`12 + 2 + 10 = 24` outside a delay slot, 25 inside one).  The other
FP-square-root words (`w & 0xF0FF = 0xF06D`) receive no such charge: 11 on
SH-4 and 14 on SH-3 outside a delay slot. -/
theorem C8_fsrra_cost (w : Nat) (d : Bool) :
    (w &&& 0xF0FF = 0xF07D →
      sh_get_timing_type w = SH_TIMING_FSQRT ∧
      sh_get_instruction_cycles w true d =
        table_at sh4_insn_timings SH_TIMING_FSQRT
          + table_at sh4_pipeline_stalls SH_TIMING_FSQRT + 5 ∧
      sh_get_instruction_cycles w true d = 16 ∧
      sh_get_instruction_cycles w false d =
        table_at sh3_insn_timings SH_TIMING_FSQRT
          + table_at sh3_pipeline_stalls SH_TIMING_FSQRT
          + (if d then table_at sh3_pipeline_stalls SH_TIMING_EXEC_SLOT else 0) + 10 ∧
      sh_get_instruction_cycles w false false = 24 ∧
      sh_get_instruction_cycles w false true = 25) ∧
    (w &&& 0xF0FF = 0xF06D →
      sh_get_timing_type w = SH_TIMING_FSQRT ∧
      sh_get_instruction_cycles w true d =
        table_at sh4_insn_timings SH_TIMING_FSQRT
          + table_at sh4_pipeline_stalls SH_TIMING_FSQRT ∧
      sh_get_instruction_cycles w true d = 11 ∧
      sh_get_instruction_cycles w false false =
        table_at sh3_insn_timings SH_TIMING_FSQRT
          + table_at sh3_pipeline_stalls SH_TIMING_FSQRT ∧
      sh_get_instruction_cycles w false false = 14) := by
  constructor
  · intro h
    have ht := type_under 0xF0FF 0xF07D w SH_TIMING_FSQRT h (by decide)
    refine ⟨ht, ?_, ?_, ?_, ?_, ?_⟩ <;> unfold sh_get_instruction_cycles <;> rw [ht] <;>
      cases d <;> simp [h] <;> decide
  · intro h
    have ht := type_under 0xF0FF 0xF06D w SH_TIMING_FSQRT h (by decide)
    have hne : w &&& 0xF0FF ≠ 0xF07D := by rw [h]; decide
    refine ⟨ht, ?_, ?_, ?_, ?_⟩ <;> unfold sh_get_instruction_cycles <;> rw [ht] <;>
      cases d <;> simp [hne] <;> decide

/-- Witness for C8 at the FSRRA word `0xF07D` and the FSQRT word `0xF06D`. -/
theorem C8_fsrra_cost_witness :
    sh_get_instruction_cycles 0xF07D true true = 16 ∧
    sh_get_instruction_cycles 0xF06D true true = 11 :=
  ⟨((C8_fsrra_cost 0xF07D true).1 (by decide)).2.2.1,
   ((C8_fsrra_cost 0xF06D true).2 (by decide)).2.2.1⟩

/-- C9: for every word, variant and delay-slot flag the instruction cost is
non-negative; more precisely it lies between 1 and 25, the maximum being
attained by the FSRRA word `0xF07D` on SH-3 in a delay slot.  Every index
used to read the four cost tables (the word's category, `SH_TIMING_EXEC_SLOT`
and `SH_TIMING_DIV`) is within the bounds of the tables. -/
theorem C9_cycles_bounds (w : Nat) (is_sh4 d : Bool) :
    0 ≤ sh_get_instruction_cycles w is_sh4 d ∧
    1 ≤ sh_get_instruction_cycles w is_sh4 d ∧
    sh_get_instruction_cycles w is_sh4 d ≤ 25 ∧
    (0xF07D < 65536 ∧ sh_get_instruction_cycles 0xF07D false true = 25) ∧
    ((sh_get_timing_type w).toNat < sh3_insn_timings.length ∧
      (sh_get_timing_type w).toNat < sh4_insn_timings.length ∧
      (sh_get_timing_type w).toNat < sh3_pipeline_stalls.length ∧
      (sh_get_timing_type w).toNat < sh4_pipeline_stalls.length) ∧
    (SH_TIMING_EXEC_SLOT.toNat < sh3_pipeline_stalls.length ∧
      SH_TIMING_EXEC_SLOT.toNat < sh4_pipeline_stalls.length ∧
      SH_TIMING_DIV.toNat < sh3_pipeline_stalls.length) := by
  have hl := type_ne_last w
  have hb : 1 ≤ sh_get_instruction_cycles w is_sh4 d ∧
      sh_get_instruction_cycles w is_sh4 d ≤ 25 := by
    unfold sh_get_instruction_cycles
    generalize sh_get_timing_type w = c at *
    cases c <;> first
      | exact absurd rfl hl
      | (cases is_sh4 <;> cases d <;>
          simp [table_at, sh_timing_type.toNat, sh3_insn_timings, sh4_insn_timings,
            sh3_pipeline_stalls, sh4_pipeline_stalls] <;>
          split_ifs <;> omega)
  have hi : (sh_get_timing_type w).toNat < 29 := by
    generalize sh_get_timing_type w = c at *
    cases c <;> first
      | exact absurd rfl hl
      | decide
  refine ⟨by omega, hb.1, hb.2, by decide, ⟨hi, hi, hi, hi⟩, by decide⟩

/-! ## Memory latency -/

/-- C10: with the cache disabled (`is_cached = false`) the returned penalty
is `(6 if the address's SDRAM page equals the context's last page, else 15)
+ 1 + cache_line_fill` of the variant, plus the unaligned charge if any
(the unaligned penalty once on SH-4, twice on SH-3, when the width is above 1
and the address has a bit of `access_size - 1` set).  The value does not
depend on the region or on the direction; for an aligned access it is 11 or
20 on SH-3 and 10 or 19 on SH-4. -/
theorem C10_cache_disabled_cost (ctx : sh_memory_context) (address : Nat)
    (is_write is_sh4 is_code : Bool) (access_size : Nat) :
    (sh_get_memory_cycles ctx address is_write is_sh4 false is_code access_size).1 =
        (if sh_get_sdram_page address = ctx.last_sdram_page then 6 else 15) + 1
          + (if is_sh4 then sh4_memory_timing else sh3_memory_timing).cache_line_fill
          + (if address &&& ((access_size + 4294967295) % 4294967296) ≠ 0 ∧ access_size > 1 then
              (if is_sh4 then sh4_memory_timing.unaligned_penalty
                else sh3_memory_timing.unaligned_penalty + sh3_memory_timing.unaligned_penalty)
            else 0) ∧
    (sh_get_memory_cycles ctx address true is_sh4 false is_code access_size).1 =
      (sh_get_memory_cycles ctx address false is_sh4 false is_code access_size).1 ∧
    (¬ (address &&& ((access_size + 4294967295) % 4294967296) ≠ 0 ∧ access_size > 1) →
      (sh_get_memory_cycles ctx address is_write false false is_code access_size).1 =
        (if sh_get_sdram_page address = ctx.last_sdram_page then 11 else 20) ∧
      (sh_get_memory_cycles ctx address is_write true false is_code access_size).1 =
        (if sh_get_sdram_page address = ctx.last_sdram_page then 10 else 19)) := by
  have key : ∀ (wr sh4 : Bool),
      (sh_get_memory_cycles ctx address wr sh4 false is_code access_size).1 =
        (if sh_get_sdram_page address = ctx.last_sdram_page then 6 else 15) + 1
          + (if sh4 then sh4_memory_timing else sh3_memory_timing).cache_line_fill
          + (if address &&& ((access_size + 4294967295) % 4294967296) ≠ 0 ∧ access_size > 1 then
              (if sh4 then sh4_memory_timing.unaligned_penalty
                else sh3_memory_timing.unaligned_penalty + sh3_memory_timing.unaligned_penalty)
            else 0) := by
    intro wr sh4
    have hpage : ∀ b : Bool,
        (if b = true then { ctx with in_burst_mode := false, burst_count := 0 } else ctx).last_sdram_page
          = ctx.last_sdram_page := by
      intro b; cases b <;> rfl
    simp only [sh_get_memory_cycles, Bool.false_and, Bool.not_true, Bool.not_false,
      Bool.false_eq_true, if_false, if_true, hpage]
    cases sh4 <;> simp [sh3_memory_timing, sh4_memory_timing] <;> split_ifs <;> simp_all
  refine ⟨key is_write is_sh4, by rw [key true is_sh4, key false is_sh4], ?_⟩
  intro h
  rw [key is_write false, key is_write true, if_neg h]
  simp [sh3_memory_timing, sh4_memory_timing]
  split_ifs <;> simp

/-! ## The memory latency evaluator: result and context in closed form -/

theorem ctx_reset_page (ctx : sh_memory_context) (b : Bool) :
    (if b = true then { ctx with in_burst_mode := false, burst_count := 0 } else ctx).last_sdram_page
      = ctx.last_sdram_page := by
  cases b <;> rfl

theorem ctx_reset_addr (ctx : sh_memory_context) (b : Bool) :
    (if b = true then { ctx with in_burst_mode := false, burst_count := 0 } else ctx).last_address
      = ctx.last_address := by
  cases b <;> rfl

theorem mem_cycles_fst (ctx : sh_memory_context) (address : Nat)
    (is_write is_sh4 is_cached is_code : Bool) (access_size : Nat) :
    (sh_get_memory_cycles ctx address is_write is_sh4 is_cached is_code access_size).1 =
      sh_memory_base_penalty ctx address is_write is_sh4 is_cached
        + sh_memory_unaligned_charge address is_sh4 access_size := by
  simp only [sh_get_memory_cycles, sh_memory_base_penalty, sh_memory_unaligned_charge,
    Bool.false_and, Bool.not_true, Bool.false_eq_true, if_false, ctx_reset_page, ctx_reset_addr]
  generalize sh_detect_memory_region address is_sh4 = r
  by_cases hu : address &&& ((access_size + 4294967295) % 4294967296) ≠ 0 ∧ access_size > 1
  · have hu1 := hu.1
    have hu2 := hu.2
    cases is_sh4 <;> simp [hu1, hu2, hu, add_assoc]
  · rw [if_neg hu]
    have : ((address &&& ((access_size + 4294967295) % 4294967296)) != 0
        && decide (access_size > 1)) = false := by
      simpa [not_and] using hu
    simp [this]

theorem mem_cycles_snd (ctx : sh_memory_context) (address : Nat)
    (is_write is_sh4 is_cached is_code : Bool) (access_size : Nat) :
    (sh_get_memory_cycles ctx address is_write is_sh4 is_cached is_code access_size).2 =
      { last_address := address
        last_was_write := is_write
        in_burst_mode := false
        burst_count :=
          if address &&& 0xFFFFFFE0 ≠ ctx.last_address &&& 0xFFFFFFE0
              ∨ ctx.last_was_write ≠ is_write then 0
          else ctx.burst_count
        last_sdram_page := sh_get_sdram_page address
        tlb_cache_valid := ctx.tlb_cache_valid
        tlb_cache_addr := ctx.tlb_cache_addr } := by
  simp only [sh_get_memory_cycles, Bool.false_and, Bool.not_true, Bool.false_eq_true, if_false]
  by_cases hr : address &&& 0xFFFFFFE0 ≠ ctx.last_address &&& 0xFFFFFFE0
      ∨ ctx.last_was_write ≠ is_write
  · rw [if_pos hr]
    have : ((address &&& 0xFFFFFFE0 != ctx.last_address &&& 0xFFFFFFE0)
        || (ctx.last_was_write != is_write)) = true := by
      simpa using hr
    simp [this]
  · rw [if_neg hr]
    have : ((address &&& 0xFFFFFFE0 != ctx.last_address &&& 0xFFFFFFE0)
        || (ctx.last_was_write != is_write)) = false := by
      simpa [not_or] using hr
    simp [this]

theorem charge_of_aligned (address : Nat) (is_sh4 : Bool) (access_size : Nat)
    (halign : access_size ≤ 1 ∨ address &&& ((access_size + 4294967295) % 4294967296) = 0) :
    sh_memory_unaligned_charge address is_sh4 access_size = 0 := by
  unfold sh_memory_unaligned_charge
  rw [if_neg]
  rintro ⟨h1, h2⟩
  rcases halign with h | h
  · omega
  · exact h1 h

theorem mem_cycles_aligned (ctx : sh_memory_context) (address : Nat)
    (is_write is_sh4 is_cached is_code : Bool) (access_size : Nat)
    (halign : access_size ≤ 1 ∨ address &&& ((access_size + 4294967295) % 4294967296) = 0) :
    (sh_get_memory_cycles ctx address is_write is_sh4 is_cached is_code access_size).1 =
      sh_memory_base_penalty ctx address is_write is_sh4 is_cached := by
  rw [mem_cycles_fst, charge_of_aligned address is_sh4 access_size halign, add_zero]

theorem base_penalty_congr (ctx1 ctx2 : sh_memory_context) (address : Nat)
    (is_write is_sh4 is_cached : Bool)
    (hpage : ctx1.last_sdram_page = ctx2.last_sdram_page)
    (hzero : ctx1.last_address = 0 ↔ ctx2.last_address = 0) :
    sh_memory_base_penalty ctx1 address is_write is_sh4 is_cached =
      sh_memory_base_penalty ctx2 address is_write is_sh4 is_cached := by
  have h : (ctx1.last_address != 0) = (ctx2.last_address != 0) := by
    by_cases h1 : ctx1.last_address = 0
    · rw [h1, hzero.mp h1]
    · have h2 : ctx2.last_address ≠ 0 := fun h => h1 (hzero.mpr h)
      rw [bne_iff_ne.mpr h1, bne_iff_ne.mpr h2]
  simp only [sh_memory_base_penalty, hpage, h]

theorem mask_of_pow_two (address k : Nat) (hk1 : 1 ≤ k) (hk : k ≤ 31) :
    address &&& ((2 ^ k + 4294967295) % 4294967296) = address % 2 ^ k := by
  have h1 : 2 ^ k ≤ 2 ^ 31 := Nat.pow_le_pow_right (by decide) hk
  have h2 : 0 < 2 ^ k := Nat.pow_pos (by decide)
  have h3 : (2 ^ k + 4294967295) % 4294967296 = 2 ^ k - 1 := by
    generalize 2 ^ k = n at *
    omega
  rw [h3, Nat.and_pow_two_sub_one_eq_mod]

/-- C11: for an aligned access with the cache enabled, an address in the
boot-ROM window (`SH_REGION_BIOS`) or in `SH_REGION_AREA2`, `SH_REGION_AREA3`
or `SH_REGION_AREA6` costs the variant's uncached read (or write) latency
plus that window's wait states, whatever the context.  On the initial
context, address 0, read, SH-4, size 4 costs `1 + 2 = 3`. -/
theorem C11_window_cost (ctx : sh_memory_context) (address : Nat)
    (is_write is_sh4 is_code : Bool) (access_size : Nat)
    (halign : access_size ≤ 1 ∨ address &&& ((access_size + 4294967295) % 4294967296) = 0) :
    (sh_detect_memory_region address is_sh4 = SH_REGION_BIOS →
      (sh_get_memory_cycles ctx address is_write is_sh4 true is_code access_size).1 =
        (if is_write then (sh_memory_timing_of is_sh4).uncached_write
          else (sh_memory_timing_of is_sh4).uncached_read)
        + (sh_memory_timing_of is_sh4).area0_wait_states) ∧
    (sh_detect_memory_region address is_sh4 = SH_REGION_AREA2 →
      (sh_get_memory_cycles ctx address is_write is_sh4 true is_code access_size).1 =
        (if is_write then (sh_memory_timing_of is_sh4).uncached_write
          else (sh_memory_timing_of is_sh4).uncached_read)
        + (sh_memory_timing_of is_sh4).area2_wait_states) ∧
    (sh_detect_memory_region address is_sh4 = SH_REGION_AREA3 →
      (sh_get_memory_cycles ctx address is_write is_sh4 true is_code access_size).1 =
        (if is_write then (sh_memory_timing_of is_sh4).uncached_write
          else (sh_memory_timing_of is_sh4).uncached_read)
        + (sh_memory_timing_of is_sh4).area3_wait_states) ∧
    (sh_detect_memory_region address is_sh4 = SH_REGION_AREA6 →
      (sh_get_memory_cycles ctx address is_write is_sh4 true is_code access_size).1 =
        (if is_write then (sh_memory_timing_of is_sh4).uncached_write
          else (sh_memory_timing_of is_sh4).uncached_read)
        + (sh_memory_timing_of is_sh4).area6_wait_states) ∧
    (sh_detect_memory_region 0 true = SH_REGION_BIOS ∧
      sh4_memory_timing.uncached_read = 1 ∧ sh4_memory_timing.area0_wait_states = 2 ∧
      (sh_get_memory_cycles sh_mem_context 0 false true true false 4).1 = 3) := by
  rw [mem_cycles_aligned ctx address is_write is_sh4 true is_code access_size halign]
  refine ⟨?_, ?_, ?_, ?_, by decide, by decide, by decide, by decide⟩ <;> intro hr <;>
    simp only [sh_memory_base_penalty, sh_memory_timing_of, hr] <;>
    cases is_write <;> cases is_sh4 <;> simp

/-- Witness for C11: the boot-ROM read at address 0 on SH-4 with width 4,
from the initial context. -/
theorem C11_window_cost_witness :
    (sh_get_memory_cycles sh_mem_context 0 false true true false 4).1 =
      (if false then (sh_memory_timing_of true).uncached_write
        else (sh_memory_timing_of true).uncached_read)
      + (sh_memory_timing_of true).area0_wait_states :=
  (C11_window_cost sh_mem_context 0 false true false 4 (Or.inr (by decide))).1 (by decide)

/-- C12: for an aligned access with the cache enabled to an address in
`SH_REGION_MAIN_MEM`, the cost is the variant's SDRAM page-hit cost when the
address's SDRAM page equals the context's last page; otherwise the page-miss
cost when the context's last address is non-zero; otherwise the uncached read
(or write) latency plus the area-1 wait states. -/
theorem C12_main_memory_cost (ctx : sh_memory_context) (address : Nat)
    (is_write is_sh4 is_code : Bool) (access_size : Nat)
    (hr : sh_detect_memory_region address is_sh4 = SH_REGION_MAIN_MEM)
    (halign : access_size ≤ 1 ∨ address &&& ((access_size + 4294967295) % 4294967296) = 0) :
    (sh_get_memory_cycles ctx address is_write is_sh4 true is_code access_size).1 =
      (if sh_get_sdram_page address = ctx.last_sdram_page then
        (sh_memory_timing_of is_sh4).sdram_page_hit
      else if ctx.last_address ≠ 0 then (sh_memory_timing_of is_sh4).sdram_page_miss
      else
        (if is_write then (sh_memory_timing_of is_sh4).uncached_write
          else (sh_memory_timing_of is_sh4).uncached_read)
        + (sh_memory_timing_of is_sh4).area1_wait_states) := by
  rw [mem_cycles_aligned ctx address is_write is_sh4 true is_code access_size halign]
  simp only [sh_memory_base_penalty, sh_memory_timing_of, hr]
  by_cases hp : sh_get_sdram_page address = ctx.last_sdram_page
  · simp [hp]
  · by_cases hz : ctx.last_address = 0
    · cases is_write <;> simp [hp, hz]
    · simp [hp, hz]

/-- Witness for C12: three main-memory reads at `0x00100000` on SH-3, one
from a context on the same page (page hit, 1), one from a context on another
page with a non-zero last address (page miss, 5), one from the initial
context (uncached read plus area-1 wait states, 3). -/
theorem C12_main_memory_cost_witness :
    (sh_get_memory_cycles
        { sh_mem_context with last_address := 0x00100010, last_sdram_page := 512 }
        0x00100000 false false true false 4).1 = 1 ∧
    (sh_get_memory_cycles
        { sh_mem_context with last_address := 0x00200000, last_sdram_page := 1024 }
        0x00100000 false false true false 4).1 = 5 ∧
    (sh_get_memory_cycles sh_mem_context 0x00100000 false false true false 4).1 = 3 := by
  refine ⟨?_, ?_, ?_⟩
  · rw [C12_main_memory_cost _ 0x00100000 false false false 4 (by decide) (Or.inr (by decide))]
    decide
  · rw [C12_main_memory_cost _ 0x00100000 false false false 4 (by decide) (Or.inr (by decide))]
    decide
  · rw [C12_main_memory_cost _ 0x00100000 false false false 4 (by decide) (Or.inr (by decide))]
    decide

/-- C13: for an aligned access with the cache enabled the cost is the
dedicated cost of the address's region, whatever the context: the cached
read/write latency for `SH_REGION_CACHED`, the uncached one for
`SH_REGION_UNCACHED`, the on-chip RAM one for `SH_REGION_ONCHIP_RAM`, the
on-chip register one for `SH_REGION_ONCHIP_REG`, and for
`SH_REGION_STORE_QUEUE` the fixed cost 2 for a read and 1 for a write on both
variants. -/
theorem C13_dedicated_region_cost (ctx : sh_memory_context) (address : Nat)
    (is_write is_sh4 is_code : Bool) (access_size : Nat)
    (halign : access_size ≤ 1 ∨ address &&& ((access_size + 4294967295) % 4294967296) = 0) :
    (sh_detect_memory_region address is_sh4 = SH_REGION_CACHED →
      (sh_get_memory_cycles ctx address is_write is_sh4 true is_code access_size).1 =
        (if is_write then (sh_memory_timing_of is_sh4).cached_write
          else (sh_memory_timing_of is_sh4).cached_read)) ∧
    (sh_detect_memory_region address is_sh4 = SH_REGION_UNCACHED →
      (sh_get_memory_cycles ctx address is_write is_sh4 true is_code access_size).1 =
        (if is_write then (sh_memory_timing_of is_sh4).uncached_write
          else (sh_memory_timing_of is_sh4).uncached_read)) ∧
    (sh_detect_memory_region address is_sh4 = SH_REGION_ONCHIP_RAM →
      (sh_get_memory_cycles ctx address is_write is_sh4 true is_code access_size).1 =
        (if is_write then (sh_memory_timing_of is_sh4).on_chip_ram_write
          else (sh_memory_timing_of is_sh4).on_chip_ram_read)) ∧
    (sh_detect_memory_region address is_sh4 = SH_REGION_ONCHIP_REG →
      (sh_get_memory_cycles ctx address is_write is_sh4 true is_code access_size).1 =
        (if is_write then (sh_memory_timing_of is_sh4).on_chip_reg_write
          else (sh_memory_timing_of is_sh4).on_chip_reg_read)) ∧
    (sh_detect_memory_region address is_sh4 = SH_REGION_STORE_QUEUE →
      (sh_get_memory_cycles ctx address is_write is_sh4 true is_code access_size).1 =
        (if is_write then 1 else 2)) := by
  rw [mem_cycles_aligned ctx address is_write is_sh4 true is_code access_size halign]
  refine ⟨?_, ?_, ?_, ?_, ?_⟩ <;> intro hr <;>
    simp only [sh_memory_base_penalty, sh_memory_timing_of, hr] <;>
    cases is_write <;> cases is_sh4 <;> simp

/-- Witness for C13: one aligned SH-4 read of width 4 in each of the five
regions, from the initial context. -/
theorem C13_dedicated_region_cost_witness :
    (sh_get_memory_cycles sh_mem_context 0x08000000 false true true false 4).1 = 0 ∧
    (sh_get_memory_cycles sh_mem_context 0x80000000 false true true false 4).1 = 1 ∧
    (sh_get_memory_cycles sh_mem_context 0x1C000000 false true true false 4).1 = 0 ∧
    (sh_get_memory_cycles sh_mem_context 0xFF000000 false true true false 4).1 = 1 ∧
    (sh_get_memory_cycles sh_mem_context 0xE0000000 false true true false 4).1 = 2 :=
  ⟨(C13_dedicated_region_cost sh_mem_context 0x08000000 false true false 4
      (Or.inr (by decide))).1 (by decide),
   (C13_dedicated_region_cost sh_mem_context 0x80000000 false true false 4
      (Or.inr (by decide))).2.1 (by decide),
   (C13_dedicated_region_cost sh_mem_context 0x1C000000 false true false 4
      (Or.inr (by decide))).2.2.1 (by decide),
   (C13_dedicated_region_cost sh_mem_context 0xFF000000 false true false 4
      (Or.inr (by decide))).2.2.2.1 (by decide),
   (C13_dedicated_region_cost sh_mem_context 0xE0000000 false true false 4
      (Or.inr (by decide))).2.2.2.2 (by decide)⟩

/-- C15: after `sh_get_memory_cycles` returns, whatever the previous context
and the inputs, the context has `last_address = address`,
`last_was_write = is_write`,
`last_sdram_page = (address & 0x1FFFFFFF) >> 11` and `in_burst_mode = false`. -/
theorem C15_context_update (ctx : sh_memory_context) (address : Nat)
    (is_write is_sh4 is_cached is_code : Bool) (access_size : Nat) :
    (sh_get_memory_cycles ctx address is_write is_sh4 is_cached is_code access_size).2.last_address
      = address ∧
    (sh_get_memory_cycles ctx address is_write is_sh4 is_cached is_code access_size).2.last_was_write
      = is_write ∧
    (sh_get_memory_cycles ctx address is_write is_sh4 is_cached is_code access_size).2.last_sdram_page
      = (address &&& 0x1FFFFFFF) >>> 11 ∧
    (sh_get_memory_cycles ctx address is_write is_sh4 is_cached is_code access_size).2.in_burst_mode
      = false := by
  rw [mem_cycles_snd]
  exact ⟨rfl, rfl, rfl, rfl⟩

/-- C16: `sh_get_memory_cycles` leaves `burst_count` equal to 0 when the new
access is not in the same 32-byte line as the previous one or the direction
flipped, and leaves it unchanged otherwise; `tlb_cache_valid` and
`tlb_cache_addr` are left unchanged in both cases. -/
theorem C16_burst_count_frame (ctx : sh_memory_context) (address : Nat)
    (is_write is_sh4 is_cached is_code : Bool) (access_size : Nat) :
    ((address &&& 0xFFFFFFE0 ≠ ctx.last_address &&& 0xFFFFFFE0 ∨ ctx.last_was_write ≠ is_write) →
      (sh_get_memory_cycles ctx address is_write is_sh4 is_cached is_code access_size).2.burst_count
        = 0) ∧
    (¬ (address &&& 0xFFFFFFE0 ≠ ctx.last_address &&& 0xFFFFFFE0
          ∨ ctx.last_was_write ≠ is_write) →
      (sh_get_memory_cycles ctx address is_write is_sh4 is_cached is_code access_size).2.burst_count
        = ctx.burst_count) ∧
    (sh_get_memory_cycles ctx address is_write is_sh4 is_cached is_code access_size).2.tlb_cache_valid
      = ctx.tlb_cache_valid ∧
    (sh_get_memory_cycles ctx address is_write is_sh4 is_cached is_code access_size).2.tlb_cache_addr
      = ctx.tlb_cache_addr := by
  rw [mem_cycles_snd]
  refine ⟨fun h => ?_, fun h => ?_, rfl, rfl⟩
  · show (if _ then 0 else ctx.burst_count) = 0
    rw [if_pos h]
  · show (if _ then 0 else ctx.burst_count) = ctx.burst_count
    rw [if_neg h]

/-- Witness for C16: from a context with `burst_count = 7`, a read in another
line resets the count, a read in the same line keeps it, and the simulated
TLB fields are kept. -/
theorem C16_burst_count_frame_witness :
    (sh_get_memory_cycles
        { sh_mem_context with last_address := 0x40, burst_count := 7, tlb_cache_valid := true,
                              tlb_cache_addr := 0x1000 }
        0x80 false true true false 4).2.burst_count = 0 ∧
    (sh_get_memory_cycles
        { sh_mem_context with last_address := 0x40, burst_count := 7, tlb_cache_valid := true,
                              tlb_cache_addr := 0x1000 }
        0x44 false true true false 4).2.burst_count = 7 ∧
    (sh_get_memory_cycles
        { sh_mem_context with last_address := 0x40, burst_count := 7, tlb_cache_valid := true,
                              tlb_cache_addr := 0x1000 }
        0x44 false true true false 4).2.tlb_cache_addr = 0x1000 :=
  ⟨(C16_burst_count_frame _ 0x80 false true true false 4).1 (by decide),
   (C16_burst_count_frame _ 0x44 false true true false 4).2.1 (by decide),
   (C16_burst_count_frame _ 0x44 false true true false 4).2.2.2⟩

/-- C14 as stated fails for a width that is not a power of two: the code
tests `address & (access_size - 1)`.  With width 3 on SH-4 (cache enabled,
initial context), address 3 is a multiple of the width yet is charged
(4 against 3 for width 1), and address 4 is not a multiple of the width yet
is not charged (3). -/
theorem C14_mask_test_is_not_divisibility :
    (3 % 3 = 0 ∧
      (sh_get_memory_cycles sh_mem_context 3 false true true false 1).1 = 3 ∧
      (sh_get_memory_cycles sh_mem_context 3 false true true false 3).1 = 4) ∧
    (4 % 3 ≠ 0 ∧
      (sh_get_memory_cycles sh_mem_context 4 false true true false 1).1 = 3 ∧
      (sh_get_memory_cycles sh_mem_context 4 false true true false 3).1 = 3) := by
  decide

/-- C14 (amended): for every context, address, direction, variant and cache
flag, and every access width `2 ^ k` with `1 ≤ k ≤ 31` (a power of two above
1), the result is the penalty of the region switch and cache-disabled
override, which does not depend on the width, plus twice (SH-3) or once
(SH-4) the variant's unaligned penalty when the address is not a multiple of
the width, and plus nothing when it is.  For width 0 or 1 no unaligned charge
is added.  For any width, the charge is decided by the mask test
`address & (access_size - 1) != 0`. -/
theorem C14_unaligned_charge (ctx : sh_memory_context) (address : Nat)
    (is_write is_sh4 is_cached is_code : Bool) (k : Nat) (hk1 : 1 ≤ k) (hk : k ≤ 31) :
    (¬ 2 ^ k ∣ address →
      (sh_get_memory_cycles ctx address is_write is_sh4 is_cached is_code (2 ^ k)).1 =
        sh_memory_base_penalty ctx address is_write is_sh4 is_cached
          + (if is_sh4 then 1 else 2) * (sh_memory_timing_of is_sh4).unaligned_penalty) ∧
    (2 ^ k ∣ address →
      (sh_get_memory_cycles ctx address is_write is_sh4 is_cached is_code (2 ^ k)).1 =
        sh_memory_base_penalty ctx address is_write is_sh4 is_cached) ∧
    (sh_get_memory_cycles ctx address is_write is_sh4 is_cached is_code 0).1 =
      sh_memory_base_penalty ctx address is_write is_sh4 is_cached ∧
    (sh_get_memory_cycles ctx address is_write is_sh4 is_cached is_code 1).1 =
      sh_memory_base_penalty ctx address is_write is_sh4 is_cached ∧
    (∀ access_size : Nat,
      (sh_get_memory_cycles ctx address is_write is_sh4 is_cached is_code access_size).1 =
        sh_memory_base_penalty ctx address is_write is_sh4 is_cached
          + (if address &&& ((access_size + 4294967295) % 4294967296) ≠ 0 ∧ access_size > 1 then
              (if is_sh4 then 1 else 2) * (sh_memory_timing_of is_sh4).unaligned_penalty
            else 0)) := by
  have hgt : 2 ^ k > 1 := Nat.one_lt_two_pow (by omega)
  refine ⟨?_, ?_, ?_, ?_, ?_⟩
  · intro hnd
    have hm : address % 2 ^ k ≠ 0 := fun h => hnd (Nat.dvd_of_mod_eq_zero h)
    rw [mem_cycles_fst]
    unfold sh_memory_unaligned_charge
    rw [mask_of_pow_two address k hk1 hk, if_pos ⟨hm, hgt⟩]
    cases is_sh4 <;> simp [sh_memory_timing_of, two_mul]
  · intro hd
    exact mem_cycles_aligned ctx address is_write is_sh4 is_cached is_code (2 ^ k)
      (Or.inr (by rw [mask_of_pow_two address k hk1 hk]; exact Nat.mod_eq_zero_of_dvd hd))
  · exact mem_cycles_aligned ctx address is_write is_sh4 is_cached is_code 0 (Or.inl (by decide))
  · exact mem_cycles_aligned ctx address is_write is_sh4 is_cached is_code 1 (Or.inl (by decide))
  · intro access_size
    rw [mem_cycles_fst]
    unfold sh_memory_unaligned_charge
    cases is_sh4 <;> simp [sh_memory_timing_of, two_mul]

/-- Witness for C14 (amended) at width `4 = 2 ^ 2`: address `0x802` is not a
multiple of 4 and is charged twice the unaligned penalty on SH-3 (7 against
5), address `0x804` is a multiple of 4 and is not charged. -/
theorem C14_unaligned_charge_witness :
    (sh_get_memory_cycles sh_mem_context 0x802 false false true false (2 ^ 2)).1 =
      sh_memory_base_penalty sh_mem_context 0x802 false false true
        + (if false then 1 else 2) * (sh_memory_timing_of false).unaligned_penalty ∧
    (sh_get_memory_cycles sh_mem_context 0x804 false false true false (2 ^ 2)).1 =
      sh_memory_base_penalty sh_mem_context 0x804 false false true :=
  ⟨(C14_unaligned_charge sh_mem_context 0x802 false false true false 2 (by decide)
      (by decide)).1 (by decide),
   (C14_unaligned_charge sh_mem_context 0x804 false false true false 2 (by decide)
      (by decide)).2.1 (by decide)⟩

/-- C17: the returned penalty depends on the context only through
`last_sdram_page` and whether `last_address` is zero, and does not depend on
the code-vs-data flag: two contexts agreeing on these two, and any two values
of `is_code`, give the same result for otherwise equal inputs.  Whatever
`in_burst_mode`, `burst_count`, `last_was_write` and the simulated-TLB fields
hold, the result is the region/cache penalty plus the unaligned charge: the
burst-continuation shortcut, the burst-first-access cost and the TLB-miss
penalty never apply, and the call leaves `in_burst_mode = false`. -/
theorem C17_context_dependence (ctx1 ctx2 : sh_memory_context) (address : Nat)
    (is_write is_sh4 is_cached is_code1 is_code2 : Bool) (access_size : Nat)
    (hpage : ctx1.last_sdram_page = ctx2.last_sdram_page)
    (hzero : ctx1.last_address = 0 ↔ ctx2.last_address = 0) :
    (sh_get_memory_cycles ctx1 address is_write is_sh4 is_cached is_code1 access_size).1 =
      (sh_get_memory_cycles ctx2 address is_write is_sh4 is_cached is_code2 access_size).1 ∧
    (sh_get_memory_cycles ctx1 address is_write is_sh4 is_cached is_code1 access_size).1 =
      sh_memory_base_penalty ctx1 address is_write is_sh4 is_cached
        + sh_memory_unaligned_charge address is_sh4 access_size ∧
    (sh_get_memory_cycles ctx1 address is_write is_sh4 is_cached is_code1 access_size).2.in_burst_mode
      = false := by
  refine ⟨?_, mem_cycles_fst _ _ _ _ _ _ _, ?_⟩
  · rw [mem_cycles_fst, mem_cycles_fst,
      base_penalty_congr ctx1 ctx2 address is_write is_sh4 is_cached hpage hzero]
  · rw [mem_cycles_snd]

/-- Witness for C17: a read at `0x14` of width 4 on SH-3 that follows a read
at `0x10`, from a context in burst mode with a burst count and from a context
that differs in every field but `last_sdram_page` and the non-zero
`last_address`; both cost the boot-ROM penalty 5, not the continuation
shortcut 1 nor the burst-first-access cost 2. -/
theorem C17_context_dependence_witness :
    (sh_get_memory_cycles
        { last_address := 0x10, last_was_write := false, in_burst_mode := true, burst_count := 3,
          last_sdram_page := 0, tlb_cache_valid := false, tlb_cache_addr := 0 }
        0x14 false false true false 4).1 =
      (sh_get_memory_cycles
        { last_address := 0x999, last_was_write := true, in_burst_mode := false, burst_count := 0,
          last_sdram_page := 0, tlb_cache_valid := true, tlb_cache_addr := 0x5000 }
        0x14 false false true true 4).1 ∧
    (sh_get_memory_cycles
        { last_address := 0x10, last_was_write := false, in_burst_mode := true, burst_count := 3,
          last_sdram_page := 0, tlb_cache_valid := false, tlb_cache_addr := 0 }
        0x14 false false true false 4).1 = 5 :=
  ⟨(C17_context_dependence _ _ 0x14 false false true false true 4 rfl (by decide)).1, by decide⟩

/-- C18: for every context, address, direction, variant, cache flag, code
flag and access size the returned penalty is non-negative and at most 22; 22
is returned for an unaligned, cache-disabled access on SH-3 whose page is not
the context's last page. -/
theorem C18_memory_cycles_bounds (ctx : sh_memory_context) (address : Nat)
    (is_write is_sh4 is_cached is_code : Bool) (access_size : Nat) :
    0 ≤ (sh_get_memory_cycles ctx address is_write is_sh4 is_cached is_code access_size).1 ∧
    (sh_get_memory_cycles ctx address is_write is_sh4 is_cached is_code access_size).1 ≤ 22 ∧
    (0x801 < 4294967296 ∧
      (sh_get_memory_cycles sh_mem_context 0x801 false false false false 2).1 = 22) := by
  have hb : 0 ≤ (sh_get_memory_cycles ctx address is_write is_sh4 is_cached is_code access_size).1 ∧
      (sh_get_memory_cycles ctx address is_write is_sh4 is_cached is_code access_size).1 ≤ 22 := by
    rw [mem_cycles_fst]
    unfold sh_memory_base_penalty sh_memory_unaligned_charge
    generalize sh_detect_memory_region address is_sh4 = r
    cases r <;> cases is_sh4 <;> cases is_cached <;> cases is_write <;>
      simp [sh3_memory_timing, sh4_memory_timing] <;> split_ifs <;> omega
  exact ⟨hb.1, hb.2, by decide, by decide⟩

/-- C19: for every address below `0x80000000` whose low 29 bits `m` are
below `0x1C000000`, the region is `SH_REGION_BIOS` if `m < 0x00100000`,
`SH_REGION_MAIN_MEM` if `0x00100000 ≤ m < 0x01000000`, `SH_REGION_AREA2` if
`0x01000000 ≤ m < 0x05000000`, `SH_REGION_AREA3` if
`0x05000000 ≤ m < 0x07000000`, `SH_REGION_AREA6` if
`0x18000000 ≤ m < 0x1C000000`, and `SH_REGION_CACHED` in the remaining case
`0x07000000 ≤ m < 0x18000000`. -/
theorem C19_cached_partition_regions (a : Nat) (is_sh4 : Bool) (ha : a < 0x80000000)
    (hm : a &&& 0x1FFFFFFF < 0x1C000000) :
    (a &&& 0x1FFFFFFF < 0x00100000 → sh_detect_memory_region a is_sh4 = SH_REGION_BIOS) ∧
    (0x00100000 ≤ a &&& 0x1FFFFFFF ∧ a &&& 0x1FFFFFFF < 0x01000000 →
      sh_detect_memory_region a is_sh4 = SH_REGION_MAIN_MEM) ∧
    (0x01000000 ≤ a &&& 0x1FFFFFFF ∧ a &&& 0x1FFFFFFF < 0x05000000 →
      sh_detect_memory_region a is_sh4 = SH_REGION_AREA2) ∧
    (0x05000000 ≤ a &&& 0x1FFFFFFF ∧ a &&& 0x1FFFFFFF < 0x07000000 →
      sh_detect_memory_region a is_sh4 = SH_REGION_AREA3) ∧
    (0x18000000 ≤ a &&& 0x1FFFFFFF ∧ a &&& 0x1FFFFFFF < 0x1C000000 →
      sh_detect_memory_region a is_sh4 = SH_REGION_AREA6) ∧
    (0x07000000 ≤ a &&& 0x1FFFFFFF ∧ a &&& 0x1FFFFFFF < 0x18000000 →
      sh_detect_memory_region a is_sh4 = SH_REGION_CACHED) := by
  unfold sh_detect_memory_region
  generalize a &&& 0x1FFFFFFF = m at *
  refine ⟨?_, ?_, ?_, ?_, ?_, ?_⟩ <;> intro h <;> dsimp only <;> split_ifs <;>
    first | rfl | omega

/-- Witness for C19: one address of the cached partition in each of the six
sub-ranges. -/
theorem C19_cached_partition_regions_witness :
    sh_detect_memory_region 0x00000000 true = SH_REGION_BIOS ∧
    sh_detect_memory_region 0x00100000 true = SH_REGION_MAIN_MEM ∧
    sh_detect_memory_region 0x21000000 true = SH_REGION_AREA2 ∧
    sh_detect_memory_region 0x05000000 true = SH_REGION_AREA3 ∧
    sh_detect_memory_region 0x78000000 true = SH_REGION_AREA6 ∧
    sh_detect_memory_region 0x07000000 true = SH_REGION_CACHED :=
  ⟨(C19_cached_partition_regions 0x00000000 true (by decide) (by decide)).1 (by decide),
   (C19_cached_partition_regions 0x00100000 true (by decide) (by decide)).2.1 (by decide),
   (C19_cached_partition_regions 0x21000000 true (by decide) (by decide)).2.2.1 (by decide),
   (C19_cached_partition_regions 0x05000000 true (by decide) (by decide)).2.2.2.1 (by decide),
   (C19_cached_partition_regions 0x78000000 true (by decide) (by decide)).2.2.2.2.1 (by decide),
   (C19_cached_partition_regions 0x07000000 true (by decide) (by decide)).2.2.2.2.2 (by decide)⟩

/-- C20 (the code in the high partition): the first test of
`sh_detect_memory_region`, `address >= 0xE0000000`, returns for every such
address, so the later cache-control and TLB-address-array tests are never
reached: every address from `0xE4000000` up is `SH_REGION_ONCHIP_REG`, in
particular `0xF0000000` and `0xF6000000`, and no address at all is classified
`SH_REGION_CCR` or `SH_REGION_P4_ADDR_ARRAY`. -/
theorem C20_high_windows_shadowed :
    (∀ (a : Nat) (is_sh4 : Bool), 0xE4000000 ≤ a →
      sh_detect_memory_region a is_sh4 = SH_REGION_ONCHIP_REG) ∧
    (∀ (a : Nat) (is_sh4 : Bool),
      sh_detect_memory_region a is_sh4 ≠ SH_REGION_CCR ∧
      sh_detect_memory_region a is_sh4 ≠ SH_REGION_P4_ADDR_ARRAY) ∧
    (sh_detect_memory_region 0xF0000000 true = SH_REGION_ONCHIP_REG ∧
      sh_detect_memory_region 0xF0000000 false = SH_REGION_ONCHIP_REG) ∧
    (sh_detect_memory_region 0xF6000000 true = SH_REGION_ONCHIP_REG ∧
      sh_detect_memory_region 0xF6000000 false = SH_REGION_ONCHIP_REG) := by
  refine ⟨?_, ?_, by decide, by decide⟩
  · intro a is_sh4 h
    unfold sh_detect_memory_region
    dsimp only
    split_ifs <;> first | rfl | omega
  · intro a is_sh4
    unfold sh_detect_memory_region
    generalize a &&& 0x1FFFFFFF = m
    dsimp only
    constructor <;> split_ifs <;> first | decide | omega

theorem size_byte_word_disjoint (w : Nat)
    (hw : w &&& 0xF00F = 0x0005 ∨ w &&& 0xF00F = 0x000D ∨ w &&& 0xF00F = 0x2001 ∨
      w &&& 0xF00F = 0x2005 ∨ w &&& 0xF00F = 0x6001 ∨ w &&& 0xF00F = 0x6005 ∨
      w &&& 0xF000 = 0x9000) :
    ¬ (w &&& 0xF00F = 0x0004 ∨ w &&& 0xF00F = 0x000C ∨ w &&& 0xF00F = 0x2000 ∨
      w &&& 0xF00F = 0x2004 ∨ w &&& 0xF00F = 0x6000 ∨ w &&& 0xF00F = 0x6004 ∨
      w &&& 0xF0FF = 0x401B) := by
  rcases hw with h | h | h | h | h | h | h <;> intro hb <;>
    rcases hb with hb | hb | hb | hb | hb | hb | hb <;>
    exact land_ne_of_disagree w _ _ _ _ h (by decide) hb

theorem masked_le (a : Nat) : a &&& 0x1FFFFFFF ≤ 0x1FFFFFFF := Nat.and_le_right

/-! ## The region classifier outside the cached partition -/

/-- C21: every address from `0xE0000000` up is `SH_REGION_STORE_QUEUE` if it
is at most `0xE3FFFFFF` and `SH_REGION_ONCHIP_REG` otherwise; every address
in `0xC0000000 ≤ a < 0xE0000000` whose low 29 bits are below `0x1C000000` is
`SH_REGION_ONCHIP_REG`. -/
theorem C21_high_partition_regions (a : Nat) (is_sh4 : Bool) :
    (0xE0000000 ≤ a → a ≤ 0xE3FFFFFF →
      sh_detect_memory_region a is_sh4 = SH_REGION_STORE_QUEUE) ∧
    (0xE0000000 ≤ a → ¬ a ≤ 0xE3FFFFFF →
      sh_detect_memory_region a is_sh4 = SH_REGION_ONCHIP_REG) ∧
    (0xC0000000 ≤ a → a < 0xE0000000 → a &&& 0x1FFFFFFF < 0x1C000000 →
      sh_detect_memory_region a is_sh4 = SH_REGION_ONCHIP_REG) := by
  unfold sh_detect_memory_region
  generalize a &&& 0x1FFFFFFF = m
  refine ⟨?_, ?_, ?_⟩
  · intro h1 h2; dsimp only; split_ifs <;> rfl
  · intro h1 h2; dsimp only; split_ifs <;> rfl
  · intro h1 h2 h3; dsimp only; split_ifs <;> first | rfl | omega

/-- Witness for C21 at `0xE0000000`, `0xE4000000` and `0xC0000000`. -/
theorem C21_high_partition_regions_witness :
    sh_detect_memory_region 0xE0000000 true = SH_REGION_STORE_QUEUE ∧
    sh_detect_memory_region 0xE4000000 true = SH_REGION_ONCHIP_REG ∧
    sh_detect_memory_region 0xC0000000 true = SH_REGION_ONCHIP_REG :=
  ⟨(C21_high_partition_regions 0xE0000000 true).1 (by decide) (by decide),
   (C21_high_partition_regions 0xE4000000 true).2.1 (by decide) (by decide),
   (C21_high_partition_regions 0xC0000000 true).2.2 (by decide) (by decide) (by decide)⟩

/-- C22: every address in the uncached-mirror partition
`0x80000000 ≤ a < 0xC0000000` whose low 29 bits are below `0x1C000000` is
classified `SH_REGION_UNCACHED`. -/
theorem C22_uncached_mirror (a : Nat) (is_sh4 : Bool) (h1 : 0x80000000 ≤ a)
    (h2 : a < 0xC0000000) (h3 : a &&& 0x1FFFFFFF < 0x1C000000) :
    sh_detect_memory_region a is_sh4 = SH_REGION_UNCACHED := by
  unfold sh_detect_memory_region
  generalize a &&& 0x1FFFFFFF = m at *
  dsimp only
  split_ifs <;> first | rfl | omega

/-- Witness for C22 at `0x80000000` and `0xA0100000`. -/
theorem C22_uncached_mirror_witness :
    sh_detect_memory_region 0x80000000 true = SH_REGION_UNCACHED ∧
    sh_detect_memory_region 0xA0100000 false = SH_REGION_UNCACHED :=
  ⟨C22_uncached_mirror 0x80000000 true (by decide) (by decide) (by decide),
   C22_uncached_mirror 0xA0100000 false (by decide) (by decide) (by decide)⟩

/-- C23: the on-chip-RAM window is tested before the partition tests: an
address is classified `SH_REGION_ONCHIP_RAM` exactly when it is below
`0xE0000000` and its low 29 bits are at least `0x1C000000`, in every
partition, for example at `0x1C000000`, `0x7C000000`, `0x9C000000` and
`0xDC000000`. -/
theorem C23_onchip_ram_window (a : Nat) (is_sh4 : Bool) :
    (sh_detect_memory_region a is_sh4 = SH_REGION_ONCHIP_RAM ↔
      a < 0xE0000000 ∧ 0x1C000000 ≤ a &&& 0x1FFFFFFF) ∧
    (sh_detect_memory_region 0x1C000000 is_sh4 = SH_REGION_ONCHIP_RAM ∧
      sh_detect_memory_region 0x7C000000 is_sh4 = SH_REGION_ONCHIP_RAM ∧
      sh_detect_memory_region 0x9C000000 is_sh4 = SH_REGION_ONCHIP_RAM ∧
      sh_detect_memory_region 0xDC000000 is_sh4 = SH_REGION_ONCHIP_RAM) := by
  refine ⟨?_, ?_⟩
  · have hle := masked_le a
    unfold sh_detect_memory_region
    generalize a &&& 0x1FFFFFFF = m at *
    dsimp only
    constructor
    · intro h
      split_ifs at h
      omega
    · intro h
      split_ifs <;> first | rfl | omega
  · cases is_sh4 <;> decide

/-- Witness for C23 at `0x9C000000`, in the uncached-mirror partition. -/
theorem C23_onchip_ram_window_witness :
    sh_detect_memory_region 0x9C000000 true = SH_REGION_ONCHIP_RAM :=
  (C23_onchip_ram_window 0x9C000000 true).1.mpr (by decide)

/-! ## Access width -/

/-- C24: for every word `w` (in particular every 16-bit word) the access
width is 1, 2 or 4.  It is 1 exactly when `w & 0xF00F` is one of `0x0004`,
`0x000C`, `0x2000`, `0x2004`, `0x6000`, `0x6004` or `w & 0xF0FF = 0x401B`; it
is 2 exactly when `w & 0xF00F` is one of `0x0005`, `0x000D`, `0x2001`,
`0x2005`, `0x6001`, `0x6005` or `w & 0xF000 = 0x9000`; it is 4 for every
other word.  So the width is a power of two, and for it the mask test
`address & (width - 1) != 0` of the evaluator holds exactly when the address
is not a multiple of the width. -/
theorem C24_access_size (w : Nat) :
    (sh_get_memory_access_size w = 1 ∨ sh_get_memory_access_size w = 2 ∨
      sh_get_memory_access_size w = 4) ∧
    (sh_get_memory_access_size w = 1 ↔
      (w &&& 0xF00F = 0x0004 ∨ w &&& 0xF00F = 0x000C ∨ w &&& 0xF00F = 0x2000 ∨
        w &&& 0xF00F = 0x2004 ∨ w &&& 0xF00F = 0x6000 ∨ w &&& 0xF00F = 0x6004 ∨
        w &&& 0xF0FF = 0x401B)) ∧
    (sh_get_memory_access_size w = 2 ↔
      (w &&& 0xF00F = 0x0005 ∨ w &&& 0xF00F = 0x000D ∨ w &&& 0xF00F = 0x2001 ∨
        w &&& 0xF00F = 0x2005 ∨ w &&& 0xF00F = 0x6001 ∨ w &&& 0xF00F = 0x6005 ∨
        w &&& 0xF000 = 0x9000)) ∧
    (¬ (w &&& 0xF00F = 0x0004 ∨ w &&& 0xF00F = 0x000C ∨ w &&& 0xF00F = 0x2000 ∨
        w &&& 0xF00F = 0x2004 ∨ w &&& 0xF00F = 0x6000 ∨ w &&& 0xF00F = 0x6004 ∨
        w &&& 0xF0FF = 0x401B) →
      ¬ (w &&& 0xF00F = 0x0005 ∨ w &&& 0xF00F = 0x000D ∨ w &&& 0xF00F = 0x2001 ∨
        w &&& 0xF00F = 0x2005 ∨ w &&& 0xF00F = 0x6001 ∨ w &&& 0xF00F = 0x6005 ∨
        w &&& 0xF000 = 0x9000) →
      sh_get_memory_access_size w = 4) ∧
    (∃ k : Nat, sh_get_memory_access_size w = 2 ^ k) ∧
    (∀ address : Nat,
      address &&& ((sh_get_memory_access_size w + 4294967295) % 4294967296) ≠ 0 ↔
        ¬ sh_get_memory_access_size w ∣ address) := by
  by_cases hb : (w &&& 0xF00F = 0x0004 ∨ w &&& 0xF00F = 0x000C ∨ w &&& 0xF00F = 0x2000 ∨
      w &&& 0xF00F = 0x2004 ∨ w &&& 0xF00F = 0x6000 ∨ w &&& 0xF00F = 0x6004 ∨
      w &&& 0xF0FF = 0x401B)
  · have hs : sh_get_memory_access_size w = 1 := by
      unfold sh_get_memory_access_size
      rw [if_pos hb]
    have hnw := fun hw => size_byte_word_disjoint w hw hb
    rw [hs]
    refine ⟨Or.inl rfl, ⟨fun _ => hb, fun _ => rfl⟩, ⟨fun h => absurd h (by decide),
      fun h => absurd h hnw⟩, fun h => absurd hb h, ⟨0, rfl⟩, ?_⟩
    intro address
    simp
  · by_cases hw : (w &&& 0xF00F = 0x0005 ∨ w &&& 0xF00F = 0x000D ∨ w &&& 0xF00F = 0x2001 ∨
        w &&& 0xF00F = 0x2005 ∨ w &&& 0xF00F = 0x6001 ∨ w &&& 0xF00F = 0x6005 ∨
        w &&& 0xF000 = 0x9000)
    · have hs : sh_get_memory_access_size w = 2 := by
        unfold sh_get_memory_access_size
        rw [if_neg hb, if_pos hw]
      rw [hs]
      refine ⟨Or.inr (Or.inl rfl), ⟨fun h => absurd h (by decide), fun h => absurd h hb⟩,
        ⟨fun _ => hw, fun _ => rfl⟩, fun _ h => absurd hw h, ⟨1, rfl⟩, ?_⟩
      intro address
      have := mask_of_pow_two address 1 (by decide) (by decide)
      rw [show (2 : Nat) ^ 1 = 2 from rfl] at this
      rw [this, Nat.dvd_iff_mod_eq_zero]
    · have hs : sh_get_memory_access_size w = 4 := by
        unfold sh_get_memory_access_size
        rw [if_neg hb, if_neg hw]
        split_ifs <;> rfl
      rw [hs]
      refine ⟨Or.inr (Or.inr rfl), ⟨fun h => absurd h (by decide), fun h => absurd h hb⟩,
        ⟨fun h => absurd h (by decide), fun h => absurd h hw⟩, fun _ _ => rfl, ⟨2, rfl⟩, ?_⟩
      intro address
      have := mask_of_pow_two address 2 (by decide) (by decide)
      rw [show (2 : Nat) ^ 2 = 4 from rfl] at this
      rw [this, Nat.dvd_iff_mod_eq_zero]

/-- Witness for C24: one byte, one word and one long-word instruction. -/
theorem C24_access_size_witness :
    sh_get_memory_access_size 0x6120 = 1 ∧
    sh_get_memory_access_size 0x9105 = 2 ∧
    sh_get_memory_access_size 0x6122 = 4 :=
  ⟨(C24_access_size 0x6120).2.1.mpr (by decide),
   (C24_access_size 0x9105).2.2.1.mpr (by decide),
   (C24_access_size 0x6122).2.2.2.1 (by decide) (by decide)⟩

/-! ## Sequences of accesses -/

theorem invariant_init : sh_context_invariant sh_mem_context := by
  unfold sh_context_invariant
  decide

theorem invariant_step (ctx : sh_memory_context) (address : Nat)
    (is_write is_sh4 is_cached is_code : Bool) (access_size : Nat)
    (h : sh_context_invariant ctx) :
    sh_context_invariant
      (sh_get_memory_cycles ctx address is_write is_sh4 is_cached is_code access_size).2 := by
  obtain ⟨_, h2, h3, h4, _⟩ := h
  rw [mem_cycles_snd]
  refine ⟨rfl, ?_, h3, h4, rfl⟩
  show (if _ then 0 else ctx.burst_count) = 0
  rw [h2, ite_self]

theorem invariant_run (calls : List sh_memory_call) :
    ∀ ctx : sh_memory_context, sh_context_invariant ctx →
      sh_context_invariant (sh_run_memory_calls ctx calls) := by
  induction calls with
  | nil => intro ctx h; exact h
  | cons c cs ih =>
    intro ctx h
    exact ih _ (invariant_step ctx c.address c.is_write c.is_sh4 c.is_cached c.is_code
      c.access_size h)

/-- C25: in every context reached from the initial zeroed context by a
finite sequence of `sh_get_memory_cycles` calls with arbitrary arguments,
`in_burst_mode = false`, `burst_count = 0`, `tlb_cache_valid = false`,
`tlb_cache_addr = 0` and `last_sdram_page` is the SDRAM page of
`last_address`. -/
theorem C25_reachable_context_invariant (calls : List sh_memory_call) :
    (sh_run_memory_calls sh_mem_context calls).in_burst_mode = false ∧
    (sh_run_memory_calls sh_mem_context calls).burst_count = 0 ∧
    (sh_run_memory_calls sh_mem_context calls).tlb_cache_valid = false ∧
    (sh_run_memory_calls sh_mem_context calls).tlb_cache_addr = 0 ∧
    (sh_run_memory_calls sh_mem_context calls).last_sdram_page =
      sh_get_sdram_page (sh_run_memory_calls sh_mem_context calls).last_address :=
  invariant_run calls sh_mem_context invariant_init

/-- C26: page hit or miss is decided by the immediately preceding access.
After any call at address `a1` from any context, a following aligned,
cache-enabled call at an address `a2` of `SH_REGION_MAIN_MEM` returns the
page-hit cost (1 on SH-3, 0 on SH-4) if `a1` and `a2` have the same page
index, the page-miss cost (5 on SH-3, 3 on SH-4) if the page indices differ
and `a1` is non-zero, and the uncached cost plus the area-1 wait states if
the page indices differ and `a1 = 0`. -/
theorem C26_page_decided_by_previous_access (ctx : sh_memory_context) (a1 : Nat)
    (w1 v1 c1 code1 : Bool) (size1 : Nat) (a2 : Nat) (w2 v2 code2 : Bool) (size2 : Nat)
    (hr : sh_detect_memory_region a2 v2 = SH_REGION_MAIN_MEM)
    (halign : size2 ≤ 1 ∨ a2 &&& ((size2 + 4294967295) % 4294967296) = 0) :
    ((a1 &&& 0x1FFFFFFF) >>> 11 = (a2 &&& 0x1FFFFFFF) >>> 11 →
      (sh_get_memory_cycles (sh_get_memory_cycles ctx a1 w1 v1 c1 code1 size1).2
          a2 w2 v2 true code2 size2).1 = (sh_memory_timing_of v2).sdram_page_hit) ∧
    ((a1 &&& 0x1FFFFFFF) >>> 11 ≠ (a2 &&& 0x1FFFFFFF) >>> 11 → a1 ≠ 0 →
      (sh_get_memory_cycles (sh_get_memory_cycles ctx a1 w1 v1 c1 code1 size1).2
          a2 w2 v2 true code2 size2).1 = (sh_memory_timing_of v2).sdram_page_miss) ∧
    ((a1 &&& 0x1FFFFFFF) >>> 11 ≠ (a2 &&& 0x1FFFFFFF) >>> 11 → a1 = 0 →
      (sh_get_memory_cycles (sh_get_memory_cycles ctx a1 w1 v1 c1 code1 size1).2
          a2 w2 v2 true code2 size2).1 =
        (if w2 then (sh_memory_timing_of v2).uncached_write
          else (sh_memory_timing_of v2).uncached_read)
        + (sh_memory_timing_of v2).area1_wait_states) ∧
    ((sh_memory_timing_of false).sdram_page_hit = 1 ∧
      (sh_memory_timing_of true).sdram_page_hit = 0 ∧
      (sh_memory_timing_of false).sdram_page_miss = 5 ∧
      (sh_memory_timing_of true).sdram_page_miss = 3) := by
  rw [mem_cycles_aligned _ a2 w2 v2 true code2 size2 halign, mem_cycles_snd]
  simp only [sh_memory_base_penalty, sh_memory_timing_of, sh_get_sdram_page, hr]
  refine ⟨?_, ?_, ?_, by decide⟩
  · intro h
    simp [h]
  · intro h h0
    have h' : ¬ (a2 &&& 0x1FFFFFFF) >>> 11 = (a1 &&& 0x1FFFFFFF) >>> 11 := fun e => h e.symm
    simp [h', h0]
  · intro h h0
    subst h0
    have h' : ¬ (a2 &&& 0x1FFFFFFF) >>> 11 = 0 := by
      intro e
      apply h
      rw [e]
      decide
    cases w2 <;> simp [h']

/-- Witness for C26: reads of main memory at `0x00100000` on SH-3 after a
previous access on the same page, on another page, and at address 0, each
time from a context that had recorded a different page. -/
theorem C26_page_decided_by_previous_access_witness :
    (sh_get_memory_cycles
        (sh_get_memory_cycles { sh_mem_context with last_sdram_page := 7 }
          0x00100400 true true true false 4).2
        0x00100000 false false true false 4).1 = 1 ∧
    (sh_get_memory_cycles
        (sh_get_memory_cycles { sh_mem_context with last_sdram_page := 512 }
          0x00200000 true true true false 4).2
        0x00100000 false false true false 4).1 = 5 ∧
    (sh_get_memory_cycles
        (sh_get_memory_cycles { sh_mem_context with last_sdram_page := 512 }
          0 true true true false 4).2
        0x00100000 false false true false 4).1 = 3 := by
  refine ⟨?_, ?_, ?_⟩
  · rw [(C26_page_decided_by_previous_access _ 0x00100400 true true true false 4
      0x00100000 false false false 4 (by decide) (Or.inr (by decide))).1 (by decide)]
    decide
  · rw [(C26_page_decided_by_previous_access _ 0x00200000 true true true false 4
      0x00100000 false false false 4 (by decide) (Or.inr (by decide))).2.1 (by decide)
      (by decide)]
    decide
  · rw [(C26_page_decided_by_previous_access _ 0 true true true false 4
      0x00100000 false false false 4 (by decide) (Or.inr (by decide))).2.2.1 (by decide)
      (by decide)]
    decide

/-! ## Entries of the classifier table that cannot decide -/

theorem low_byte_high_mask (d : Nat) (hd : d < 256) : d &&& 0xFF00 = 0 := by
  have h : d &&& 255 = d := Nat.and_pow_two_sub_one_of_lt_two_pow (n := 8) hd
  calc d &&& 0xFF00 = (d &&& 255) &&& 0xFF00 := by rw [h]
    _ = d &&& (255 &&& 0xFF00) := Nat.land_assoc _ _ _
    _ = 0 := by rw [show (255 : Nat) &&& 0xFF00 = 0 from by decide]; exact Nat.and_zero d

theorem high_byte_of_or (p d : Nat) (hp : p &&& 0xFF00 = p) (hd : d < 256) :
    (p ||| d) &&& 0xFF00 = p := by
  rw [Nat.land_comm, Nat.and_or_distrib_left, Nat.land_comm 0xFF00 p, Nat.land_comm 0xFF00 d,
    hp, low_byte_high_mask d hd]
  exact Nat.or_zero p

theorem nibble_mask_ne (w p : Nat) (hp : p &&& 0x0F00 ≠ 0) : w &&& 0xF000 ≠ p := by
  intro h
  apply hp
  rw [← h, Nat.land_assoc, show (0xF000 : Nat) &&& 0x0F00 = 0 from by decide]
  exact Nat.and_zero w

theorem tas_entry_unique :
    ∀ e ∈ sh_timing_map, e.timing_type = SH_TIMING_TAS → e.mask = 0xF0FF ∧ e.pattern = 0x401B := by
  decide

/-- C27 (the code at conditional branches): the four table entries for BT,
BF, BT/S and BF/S pair the mask `0xF000` with the patterns `0x8900`,
`0x8B00`, `0x8D00` and `0x8F00`, which no masked word can equal, so they
never match.  For every 8-bit displacement `d` the words `0x8900 | d`,
`0x8B00 | d`, `0x8D00 | d` and `0x8F00 | d` fall through to the default entry
and are classified `SH_TIMING_INT_ARITH`, not `SH_TIMING_BRANCH`. -/
theorem C27_conditional_branches_not_branch :
    (∀ d : Nat, d < 256 →
      sh_get_timing_type (0x8900 ||| d) = SH_TIMING_INT_ARITH ∧
      sh_get_timing_type (0x8B00 ||| d) = SH_TIMING_INT_ARITH ∧
      sh_get_timing_type (0x8D00 ||| d) = SH_TIMING_INT_ARITH ∧
      sh_get_timing_type (0x8F00 ||| d) = SH_TIMING_INT_ARITH) ∧
    (∀ w : Nat, w &&& 0xF000 ≠ 0x8900 ∧ w &&& 0xF000 ≠ 0x8B00 ∧
      w &&& 0xF000 ≠ 0x8D00 ∧ w &&& 0xF000 ≠ 0x8F00) ∧
    (sh_timing_map[45]? = some (sh_opcode_timing_map.mk 0xF000 0x8900 SH_TIMING_BRANCH) ∧
      sh_timing_map[46]? = some (sh_opcode_timing_map.mk 0xF000 0x8B00 SH_TIMING_BRANCH) ∧
      sh_timing_map[47]? = some (sh_opcode_timing_map.mk 0xF000 0x8D00 SH_TIMING_BRANCH) ∧
      sh_timing_map[48]? = some (sh_opcode_timing_map.mk 0xF000 0x8F00 SH_TIMING_BRANCH)) ∧
    (sh_get_timing_type 0x8900 = SH_TIMING_INT_ARITH ∧
      sh_get_timing_type 0x8900 ≠ SH_TIMING_BRANCH ∧
      sh_get_instruction_cycles 0x8900 true false = 1 ∧
      table_at sh4_insn_timings SH_TIMING_BRANCH + table_at sh4_pipeline_stalls SH_TIMING_BRANCH
        = 3) := by
  refine ⟨?_, ?_, by decide, by decide⟩
  · intro d hd
    exact ⟨type_under 0xFF00 0x8900 _ _ (high_byte_of_or 0x8900 d (by decide) hd) (by decide),
      type_under 0xFF00 0x8B00 _ _ (high_byte_of_or 0x8B00 d (by decide) hd) (by decide),
      type_under 0xFF00 0x8D00 _ _ (high_byte_of_or 0x8D00 d (by decide) hd) (by decide),
      type_under 0xFF00 0x8F00 _ _ (high_byte_of_or 0x8F00 d (by decide) hd) (by decide)⟩
  · intro w
    exact ⟨nibble_mask_ne w _ (by decide), nibble_mask_ne w _ (by decide),
      nibble_mask_ne w _ (by decide), nibble_mask_ne w _ (by decide)⟩

/-- C29 (the code at a line end): `sh_is_burst_continuation` only refuses a
previous address at offset `0x1C` of its line.  A byte access at `0x20` after
one at `0x1F`, a word access at `0x20` after one at `0x1E` and a long-word
access at `0x21` after one at `0x1D` are all continuations, although the two
addresses lie in different 32-byte lines. -/
theorem C29_continuation_crosses_line :
    (sh_is_burst_continuation 0x20 0x1F 1 = true ∧
      0x20 &&& 0xFFFFFFE0 ≠ 0x1F &&& 0xFFFFFFE0) ∧
    (sh_is_burst_continuation 0x20 0x1E 2 = true ∧
      0x20 &&& 0xFFFFFFE0 ≠ 0x1E &&& 0xFFFFFFE0) ∧
    (sh_is_burst_continuation 0x21 0x1D 4 = true ∧
      0x21 &&& 0xFFFFFFE0 ≠ 0x1D &&& 0xFFFFFFE0) ∧
    (sh_is_burst_continuation 0x20 0x1C 4 = false) := by
  decide

/-- C30: for every word `w` (in particular every 16-bit word) the category
is never `SH_TIMING_EXEC_SLOT`, `SH_TIMING_TAS`, `SH_TIMING_MAC`,
`SH_TIMING_DMA` or `SH_TIMING_LAST`.  Every TAS.B-shaped word
(`w & 0xF0FF = 0x401B`) is classified `SH_TIMING_BRANCH`, because the earlier
`0xF00F/0x400B` entry (index 49, before the TAS.B entry at index 114) matches
it first; and no word reaches the `SH_TIMING_MAC` override of
`sh_get_instruction_cycles`. -/
theorem C30_unreachable_categories (w : Nat) :
    (sh_get_timing_type w ≠ SH_TIMING_EXEC_SLOT ∧
      sh_get_timing_type w ≠ SH_TIMING_TAS ∧
      sh_get_timing_type w ≠ SH_TIMING_MAC ∧
      sh_get_timing_type w ≠ SH_TIMING_DMA ∧
      sh_get_timing_type w ≠ SH_TIMING_LAST) ∧
    (w &&& 0xF0FF = 0x401B →
      sh_get_timing_type w = SH_TIMING_BRANCH ∧ w &&& 0xF00F = 0x400B) ∧
    (sh_timing_map[49]? = some (sh_opcode_timing_map.mk 0xF00F 0x400B SH_TIMING_BRANCH) ∧
      sh_timing_map[114]? = some (sh_opcode_timing_map.mk 0xF0FF 0x401B SH_TIMING_TAS)) ∧
    (sh_get_timing_type w == SH_TIMING_MAC) = false := by
  have hbr : w &&& 0xF0FF = 0x401B → sh_get_timing_type w = SH_TIMING_BRANCH :=
    fun h => type_under 0xF0FF 0x401B w _ h (by decide)
  have htas : sh_get_timing_type w ≠ SH_TIMING_TAS := by
    intro h
    rcases type_cases w with h' | ⟨e, he, hm, hr⟩
    · rw [h'] at h; cases h
    · obtain ⟨h1, h2⟩ := tas_entry_unique e he (hr ▸ h)
      rw [h1, h2] at hm
      rw [hbr hm] at h
      cases h
  refine ⟨⟨type_ne_of_absent w _ (by decide) (by decide), htas, type_ne_mac w,
    type_ne_of_absent w _ (by decide) (by decide), type_ne_last w⟩, ?_, by decide, ?_⟩
  · intro h
    exact ⟨hbr h, land_eq_of_agree w 0xF00F 0x400B 0xF0FF 0x401B h (by decide) (by decide)⟩
  · simpa using type_ne_mac w

/-- Witness for C30 at the TAS.B word `0x401B`. -/
theorem C30_unreachable_categories_witness :
    sh_get_timing_type 0x401B = SH_TIMING_BRANCH :=
  ((C30_unreachable_categories 0x401B).2.1 (by decide)).1

/-! ## The memory-access predicate on the LDC/STC memory forms of the table -/

theorem stc_form_not_memory_access (w : Nat)
    (h : w &&& 0xF0FF = 0x003A ∨ w &&& 0xF0FF = 0x002A ∨ w &&& 0xF0FF = 0x001A) :
    sh_is_memory_access w = false := by
  rcases h with h | h | h
  · have key : ∀ m p : Nat, p &&& 0xF0FF ≠ 0x003A &&& m → (w &&& m = p) = False :=
      fun m p hne => eq_false (land_ne_of_disagree w m p 0xF0FF 0x003A h hne)
    unfold sh_is_memory_access
    simp (disch := decide) only [key, or_self, if_false]
  · have key : ∀ m p : Nat, p &&& 0xF0FF ≠ 0x002A &&& m → (w &&& m = p) = False :=
      fun m p hne => eq_false (land_ne_of_disagree w m p 0xF0FF 0x002A h hne)
    unfold sh_is_memory_access
    simp (disch := decide) only [key, or_self, if_false]
  · have key : ∀ m p : Nat, p &&& 0xF0FF ≠ 0x001A &&& m → (w &&& m = p) = False :=
      fun m p hne => eq_false (land_ne_of_disagree w m p 0xF0FF 0x001A h hne)
    unfold sh_is_memory_access
    simp (disch := decide) only [key, or_self, if_false]

theorem ldc_form_memory_access (w P : Nat) (h : w &&& 0xF0FF = P)
    (hp : P &&& 0xF00F = 0x000E) : sh_is_memory_access w = true := by
  have h2 : w &&& 0xF00F = 0x000E :=
    land_eq_of_agree w 0xF00F 0x000E 0xF0FF P h (by decide) hp
  unfold sh_is_memory_access
  simp [h2]

/-- C28 (the code at the LDC/STC memory forms of the table): the words the
table labels `STC SR/GBR/VBR,@-Rn` (`w & 0xF0FF` one of `0x003A`, `0x002A`,
`0x001A`) are classified `SH_TIMING_SYS_REG` and `sh_is_memory_access`
answers `false` for every one of them, since its LDC/STC tests use the
patterns `0x40x6` and `0x40xE`.  The words labelled `LDC @Rm+,SR/GBR/VBR`
(`0x003E`, `0x002E`, `0x001E`) are answered `true`, through the
`MOV.L @(R0,Rm),Rn` test `w & 0xF00F = 0x000E`. -/
theorem C28_stc_memory_forms_not_reported :
    (∀ w : Nat, w &&& 0xF0FF = 0x003A ∨ w &&& 0xF0FF = 0x002A ∨ w &&& 0xF0FF = 0x001A →
      sh_get_timing_type w = SH_TIMING_SYS_REG ∧ sh_is_memory_access w = false) ∧
    (∀ w : Nat, w &&& 0xF0FF = 0x003E ∨ w &&& 0xF0FF = 0x002E ∨ w &&& 0xF0FF = 0x001E →
      sh_get_timing_type w = SH_TIMING_SYS_REG ∧ sh_is_memory_access w = true ∧
      w &&& 0xF00F = 0x000E) ∧
    (sh_timing_map[79]? = some (sh_opcode_timing_map.mk 0xF0FF 0x003A SH_TIMING_SYS_REG) ∧
      sh_timing_map[80]? = some (sh_opcode_timing_map.mk 0xF0FF 0x002A SH_TIMING_SYS_REG) ∧
      sh_timing_map[81]? = some (sh_opcode_timing_map.mk 0xF0FF 0x001A SH_TIMING_SYS_REG)) ∧
    (sh_is_memory_access 0x003A = false ∧ sh_is_memory_access 0x002A = false ∧
      sh_is_memory_access 0x001A = false ∧ sh_is_memory_access 0x003E = true) := by
  refine ⟨?_, ?_, by decide, by decide⟩
  · intro w h
    refine ⟨?_, stc_form_not_memory_access w h⟩
    rcases h with h | h | h
    · exact type_under 0xF0FF 0x003A w _ h (by decide)
    · exact type_under 0xF0FF 0x002A w _ h (by decide)
    · exact type_under 0xF0FF 0x001A w _ h (by decide)
  · intro w h
    rcases h with h | h | h
    · exact ⟨type_under 0xF0FF 0x003E w _ h (by decide),
        ldc_form_memory_access w _ h (by decide),
        land_eq_of_agree w 0xF00F 0x000E 0xF0FF _ h (by decide) (by decide)⟩
    · exact ⟨type_under 0xF0FF 0x002E w _ h (by decide),
        ldc_form_memory_access w _ h (by decide),
        land_eq_of_agree w 0xF00F 0x000E 0xF0FF _ h (by decide) (by decide)⟩
    · exact ⟨type_under 0xF0FF 0x001E w _ h (by decide),
        ldc_form_memory_access w _ h (by decide),
        land_eq_of_agree w 0xF00F 0x000E 0xF0FF _ h (by decide) (by decide)⟩

/-! ## Relations between the components -/

theorem memory_entry_shapes :
    ∀ e ∈ sh_timing_map,
      (e.timing_type = SH_TIMING_LOAD ∨ e.timing_type = SH_TIMING_STORE ∨
        e.timing_type = SH_TIMING_LOAD_PC ∨ e.timing_type = SH_TIMING_PREF ∨
        e.timing_type = SH_TIMING_MOVCA ∨ e.timing_type = SH_TIMING_MULTI_OP) →
      (e.mask = 0xF000 ∧
        (e.pattern = 0x5000 ∨ e.pattern = 0x9000 ∨ e.pattern = 0xD000 ∨ e.pattern = 0x1000)) ∨
      (e.mask = 0xF00F ∧
        (e.pattern = 0x6000 ∨ e.pattern = 0x6001 ∨ e.pattern = 0x6002 ∨ e.pattern = 0x6004 ∨
          e.pattern = 0x6005 ∨ e.pattern = 0x6006 ∨ e.pattern = 0x2000 ∨ e.pattern = 0x2001 ∨
          e.pattern = 0x2002 ∨ e.pattern = 0x2004 ∨ e.pattern = 0x2005 ∨ e.pattern = 0x2006 ∨
          e.pattern = 0x0004 ∨ e.pattern = 0x0005 ∨ e.pattern = 0x0006 ∨ e.pattern = 0x000F ∨
          e.pattern = 0x400F)) ∨
      (e.mask = 0xF0FF ∧ (e.pattern = 0x0083 ∨ e.pattern = 0x00C3)) := by
  decide

theorem region_variant_irrelevant (a : Nat) (v v' : Bool) :
    sh_detect_memory_region a v = sh_detect_memory_region a v' := rfl

/-- C31: the classifier and the memory-access predicate agree on memory
instructions: every word whose category is `SH_TIMING_LOAD`,
`SH_TIMING_STORE`, `SH_TIMING_LOAD_PC`, `SH_TIMING_PREF`, `SH_TIMING_MOVCA`
or `SH_TIMING_MULTI_OP` is reported as a memory access. -/
theorem C31_memory_categories_are_memory_accesses (w : Nat)
    (h : sh_get_timing_type w = SH_TIMING_LOAD ∨ sh_get_timing_type w = SH_TIMING_STORE ∨
      sh_get_timing_type w = SH_TIMING_LOAD_PC ∨ sh_get_timing_type w = SH_TIMING_PREF ∨
      sh_get_timing_type w = SH_TIMING_MOVCA ∨ sh_get_timing_type w = SH_TIMING_MULTI_OP) :
    sh_is_memory_access w = true := by
  rcases type_cases w with h' | ⟨e, he, hm, hr⟩
  · rw [h'] at h
    rcases h with h | h | h | h | h | h <;> cases h
  · rw [hr] at h
    rcases memory_entry_shapes e he h with ⟨hk, hp⟩ | ⟨hk, hp⟩ | ⟨hk, hp⟩
    · rw [hk] at hm
      rcases hp with hp | hp | hp | hp <;>
        (rw [hp] at hm; unfold sh_is_memory_access; simp [hm])
    · rw [hk] at hm
      rcases hp with hp | hp | hp | hp | hp | hp | hp | hp | hp | hp | hp | hp | hp | hp | hp |
          hp | hp <;>
        (rw [hp] at hm; unfold sh_is_memory_access; simp [hm])
    · rw [hk] at hm
      rcases hp with hp | hp <;>
        (rw [hp] at hm; unfold sh_is_memory_access; simp [hm])

/-- Witness for C31 at `MOV.L @R2,R1` (`0x6122`, a load) and at the MAC.L
word `0x000F` (a multi-operation instruction). -/
theorem C31_memory_categories_are_memory_accesses_witness :
    sh_is_memory_access 0x6122 = true ∧ sh_is_memory_access 0x000F = true :=
  ⟨C31_memory_categories_are_memory_accesses 0x6122 (Or.inl (by decide)),
   C31_memory_categories_are_memory_accesses 0x000F
     (Or.inr (Or.inr (Or.inr (Or.inr (Or.inr (by decide))))))⟩

/-- C32: memory accesses never cost less on SH-3 than on SH-4: for every
context and all other inputs equal, the call with `is_sh4 = false` returns a
value at least as large as the call with `is_sh4 = true`, and the two calls
leave the same context. -/
theorem C32_sh3_not_cheaper (ctx : sh_memory_context) (address : Nat)
    (is_write is_cached is_code : Bool) (access_size : Nat) :
    (sh_get_memory_cycles ctx address is_write true is_cached is_code access_size).1 ≤
      (sh_get_memory_cycles ctx address is_write false is_cached is_code access_size).1 ∧
    (sh_get_memory_cycles ctx address is_write false is_cached is_code access_size).2 =
      (sh_get_memory_cycles ctx address is_write true is_cached is_code access_size).2 := by
  refine ⟨?_, by rw [mem_cycles_snd, mem_cycles_snd]⟩
  rw [mem_cycles_fst, mem_cycles_fst]
  unfold sh_memory_base_penalty sh_memory_unaligned_charge
  rw [region_variant_irrelevant address true false]
  generalize sh_detect_memory_region address false = r
  cases r <;> cases is_cached <;> cases is_write <;>
    simp [sh3_memory_timing, sh4_memory_timing] <;> split_ifs <;> omega

/-- C33: within the cached partition the region depends only on the low 29
address bits and not on the variant flag: for every address below
`0x80000000` and all variant flags, the region of the address is the region
of its low 29 bits. -/
theorem C33_cached_partition_low_bits (a : Nat) (v v' : Bool) (ha : a < 0x80000000) :
    sh_detect_memory_region a v = sh_detect_memory_region (a &&& 0x1FFFFFFF) v' := by
  have hidem : (a &&& 0x1FFFFFFF) &&& 0x1FFFFFFF = a &&& 0x1FFFFFFF := by
    rw [Nat.land_assoc, Nat.and_self]
  have hle : a &&& 0x1FFFFFFF ≤ 0x1FFFFFFF := Nat.and_le_right
  unfold sh_detect_memory_region
  dsimp only
  rw [hidem]
  generalize a &&& 0x1FFFFFFF = m at *
  have h1 : ¬ a ≥ 0xE0000000 := by omega
  have h2 : ¬ m ≥ 0xE0000000 := by omega
  have h3 : m < 0x80000000 := by omega
  rw [if_neg h1, if_neg h2]
  simp only [ha, h3, if_true]

/-- Witness for C33 at `0x61000000`, whose low 29 bits `0x01000000` lie in
area 2. -/
theorem C33_cached_partition_low_bits_witness :
    sh_detect_memory_region 0x61000000 true = sh_detect_memory_region (0x61000000 &&& 0x1FFFFFFF) false ∧
    sh_detect_memory_region 0x61000000 true = SH_REGION_AREA2 :=
  ⟨C33_cached_partition_low_bits 0x61000000 true false (by decide), by decide⟩

end SH34
